import Mathlib

/-!
# Boot success marking and snap installability checks

A shallow embedding of `partition/bootloader.go` and
`overlord/snapstate/check_snap.go`, followed by the properties proved
about them.  Go strings are Lean strings, a Go `error` result is an
`Option` (`none` is `nil`), a `(value, error)` result is an `Except`.
-/

namespace GoStrings

/-- Worker of `Replace` for a non-empty `old`: scans left to right, `skip`
counts the characters of a match that are still to be dropped. -/
def replaceGo (old new : List Char) : Nat → List Char → List Char
  | _, [] => []
  | skip + 1, _ :: cs => replaceGo old new skip cs
  | 0, c :: cs =>
    if old.isPrefixOf (c :: cs) then new ++ replaceGo old new (old.length - 1) cs
    else c :: replaceGo old new 0 cs

/-- Go's `strings.Replace(s, old, new, -1)`: every non-overlapping occurrence
of `old` in `s`, taken left to right, is replaced by `new`.  An empty `old`
matches before every character and at the end. -/
def Replace (s old new : String) : String :=
  if old.data = [] then
    String.mk (s.data.foldr (fun c acc => new.data ++ c :: acc) new.data)
  else
    String.mk (replaceGo old.data new.data 0 s.data)

/-- Go's `strings.Join(elems, sep)`. -/
def Join : List String → String → String
  | [], _ => ""
  | [a], _ => a
  | a :: b :: rest, sep => a ++ sep ++ Join (b :: rest) sep

end GoStrings

namespace Partition

/-- Boot variable holding the boot mode. -/
def bootmodeVar : String := "snappy_mode"

/-- Boot variable holding the trial-boot flag. -/
def trialBootVar : String := "snappy_trial_boot"

/-- Initial value of the boot mode. -/
def modeTry : String := "try"

/-- Final value of the boot mode. -/
def modeSuccess : String := "regular"

/-- The part of the `Bootloader` interface used by the success marker.  The
bootloader's storage is the explicit state `σ`; both calls may fail with an
error of type `ε` and both may change the storage. -/
structure Bootloader (σ ε : Type) where
  /-- Return the value of the specified bootloader variable. -/
  GetBootVar : σ → String → Except ε String × σ
  /-- Set the value of the specified bootloader variable. -/
  SetBootVar : σ → String → String → Option ε × σ

/-- A call issued on a bootloader. -/
inductive Call where
  | get (name : String)
  | set (name value : String)
deriving DecidableEq

/-- Outcome of a run of the success marker: the returned error, the storage
at return, and (ghost state) the calls issued in order, each with the storage
right after it. -/
structure Run (σ ε : Type) where
  err : Option ε
  st : σ
  trace : List (Call × σ)

/-- One iteration of the loop of `MarkBootSuccessful`, for the key `k`. -/
def markBody {σ ε : Type} (bl : Bootloader σ ε) (k : String) (s : σ) :
    Option ε × σ × List (Call × σ) :=
  match bl.GetBootVar s k with
  | (.error err, s1) => (some err, s1, [(.get k, s1)])
  | (.ok value, s1) =>
    let newKey := GoStrings.Replace k "snappy_" "snappy_good_"
    match bl.SetBootVar s1 newKey value with
    | (some err, s2) => (some err, s2, [(.get k, s1), (.set newKey value, s2)])
    | (none, s2) =>
      match bl.SetBootVar s2 "snappy_mode" modeSuccess with
      | (some err, s3) =>
        (some err, s3,
          [(.get k, s1), (.set newKey value, s2), (.set "snappy_mode" modeSuccess, s3)])
      | (none, s3) =>
        match bl.SetBootVar s3 "snappy_trial_boot" "0" with
        | (some err, s4) =>
          (some err, s4,
            [(.get k, s1), (.set newKey value, s2), (.set "snappy_mode" modeSuccess, s3),
             (.set "snappy_trial_boot" "0", s4)])
        | (none, s4) =>
          (none, s4,
            [(.get k, s1), (.set newKey value, s2), (.set "snappy_mode" modeSuccess, s3),
             (.set "snappy_trial_boot" "0", s4)])

/-- The `for _, k := range keys` loop of `MarkBootSuccessful`. -/
def markLoop {σ ε : Type} (bl : Bootloader σ ε) :
    List String → σ → List (Call × σ) → Run σ ε
  | [], s, t => ⟨none, s, t⟩
  | k :: ks, s, t =>
    match markBody bl k s with
    | (some err, s1, t1) => ⟨some err, s1, t ++ t1⟩
    | (none, s1, t1) => markLoop bl ks s1 (t ++ t1)

/-- Embedding of `MarkBootSuccessful`. -/
def MarkBootSuccessful {σ ε : Type} (bl : Bootloader σ ε) (s : σ) : Run σ ε :=
  markLoop bl ["snappy_os", "snappy_kernel"] s []

/-- A map from variable names to values, as a Go `map[string]string`. -/
abbrev Store := String → Option String

/-- Go map read `m[name]`: the zero value `""` for an absent key. -/
def Store.read (m : Store) (name : String) : String := (m name).getD ""

/-- Go map write `m[name] = value`. -/
def Store.write (m : Store) (name value : String) : Store :=
  fun k => if k = name then some value else m k

/-- Modelled from the spec: the map-backed bootloader store, on which every
`GetBootVar` and `SetBootVar` call succeeds (the sources at hand hold only the
`Bootloader` interface, no implementation of it). -/
def mapBootloader (ε : Type) : Bootloader Store ε where
  GetBootVar := fun m name => (.ok (m.read name), m)
  SetBootVar := fun m name value => (none, m.write name value)

/-- Store of the worked example: a trial boot of `core_1` and `kernel_1`. -/
def trialStore : Store := fun k =>
  if k = "snappy_os" then some "core_1"
  else if k = "snappy_kernel" then some "kernel_1"
  else if k = "snappy_mode" then some "try"
  else if k = "snappy_trial_boot" then some "1"
  else none

/-- Effect of issuing the call `c` on the storage `s`: the error the call
returns, if any, and the storage it leaves. -/
def Bootloader.exec {σ ε : Type} (bl : Bootloader σ ε) (s : σ) : Call → Option ε × σ
  | .get name =>
    match bl.GetBootVar s name with
    | (.error e, s1) => (some e, s1)
    | (.ok _, s1) => (none, s1)
  | .set name value => bl.SetBootVar s name value

/-- Storage after the last call of a trace that started on `s`. -/
def lastStore {σ : Type} : σ → List (Call × σ) → σ
  | s, [] => s
  | _, (_, s1) :: rest => lastStore s1 rest

/-- The trace `t` replays on `bl` from the storage `s`: each recorded storage
is the one its call leaves, a call that fails is the last call of the trace
and its error is the result `r`, and `r` is `none` when no call fails. -/
def StopsAtFirstFailure {σ ε : Type} (bl : Bootloader σ ε) :
    σ → List (Call × σ) → Option ε → Prop
  | _, [], r => r = none
  | s, (c, s1) :: rest, r =>
    (bl.exec s c).2 = s1 ∧
      match (bl.exec s c).1 with
      | some e => rest = [] ∧ r = some e
      | none => StopsAtFirstFailure bl s1 rest r

/-- A map-backed bootloader whose store rejects every write of `snappy_mode`
with the error "EROFS" and leaves the map as it is. -/
def modeLockedBootloader : Bootloader Store String where
  GetBootVar := fun m name => (.ok (m.read name), m)
  SetBootVar := fun m name value =>
    if name = "snappy_mode" then (some "EROFS", m) else (none, m.write name value)

/-- A store in which the kernel mirror is stale during a trial boot. -/
def staleStore : Store := fun k =>
  if k = "snappy_os" then some "core_2"
  else if k = "snappy_kernel" then some "kernel_2"
  else if k = "snappy_good_os" then some "core_1"
  else if k = "snappy_good_kernel" then some "kernel_1"
  else if k = "snappy_mode" then some "try"
  else if k = "snappy_trial_boot" then some "1"
  else none

end Partition

namespace GoStrings

/-- Lower-case hexadecimal digit of a number below 16. -/
def hexDigit (n : Nat) : Char :=
  if n < 10 then Char.ofNat (48 + n) else Char.ofNat (87 + n)

/-- Go's table of the printable code points above 0xFF (`isPrint16`,
`isNotPrint16`, `isPrint32`, `isNotPrint32` of package `strconv`).  The table
is not among the sources, so it is a parameter of everything that quotes. -/
abbrev PrintTable := Char → Bool

/-- Go's `strconv.IsPrint`: in Latin-1 the code points 0x20 to 0x7E and 0xA1
to 0xFF other than the soft hyphen 0xAD; above 0xFF what the table says. -/
def IsPrint (tbl : PrintTable) (c : Char) : Bool :=
  if c.toNat ≤ 255 then
    if 32 ≤ c.toNat ∧ c.toNat ≤ 126 then true
    else if 161 ≤ c.toNat ∧ c.toNat ≤ 255 then c.toNat != 173
    else false
  else tbl c

/-- Escaped form of one character inside a double-quoted Go string literal, as
`strconv.Quote` writes it: the quote and the backslash get a backslash, a
printable character stands for itself, and any other character is written as
a letter escape, `\x` with two, `\u` with four or `\U` with eight hexadecimal
digits.  The delete character 0x7F is written `\x7f`, as current Go releases
write it. -/
def quoteRune (tbl : PrintTable) (c : Char) : List Char :=
  let bs := Char.ofNat 92
  if c = Char.ofNat 34 ∨ c = bs then [bs, c]
  else if IsPrint tbl c then [c]
  else if c.toNat = 7 then [bs, 'a']
  else if c.toNat = 8 then [bs, 'b']
  else if c.toNat = 12 then [bs, 'f']
  else if c.toNat = 10 then [bs, 'n']
  else if c.toNat = 13 then [bs, 'r']
  else if c.toNat = 9 then [bs, 't']
  else if c.toNat = 11 then [bs, 'v']
  else if c.toNat < 32 ∨ c.toNat = 127 then
    [bs, 'x', hexDigit (c.toNat / 16), hexDigit (c.toNat % 16)]
  else if c.toNat < 65536 then
    [bs, 'u', hexDigit (c.toNat / 4096 % 16), hexDigit (c.toNat / 256 % 16),
      hexDigit (c.toNat / 16 % 16), hexDigit (c.toNat % 16)]
  else
    [bs, 'U', hexDigit (c.toNat / 268435456 % 16), hexDigit (c.toNat / 16777216 % 16),
      hexDigit (c.toNat / 1048576 % 16), hexDigit (c.toNat / 65536 % 16),
      hexDigit (c.toNat / 4096 % 16), hexDigit (c.toNat / 256 % 16),
      hexDigit (c.toNat / 16 % 16), hexDigit (c.toNat % 16)]

/-- The verb `%q` of `fmt` on a string: `strconv.Quote`. -/
def Quote (tbl : PrintTable) (s : String) : String :=
  String.mk (Char.ofNat 34 :: (s.data.flatMap (quoteRune tbl) ++ [Char.ofNat 34]))

/-- A printable table for worked examples: above 0xFF every code point is
printable except the zero-width space U+200B. -/
def samplePrintTable : PrintTable := fun c => c.toNat != 8203

end GoStrings

namespace Snapstate

open GoStrings

/-- A Go `error` value reaching or leaving `checkSnap`. -/
inductive Error where
  /-- The sentinel `state.ErrNoState`. -/
  | ErrNoState
  /-- An error built by `fmt.Errorf`, with its message. -/
  | errorf (msg : String)
  /-- Any other error value of a collaborator. -/
  | other (id : Nat)
deriving DecidableEq

/-- Modelled from the spec: the declared type `app` of package `snap` (the
package is not among the sources at hand). -/
def TypeApp : String := "app"

/-- Modelled from the spec: the declared type `gadget` of package `snap`. -/
def TypeGadget : String := "gadget"

/-- Modelled from the spec: the declared type `os` of package `snap`. -/
def TypeOS : String := "os"

/-- Modelled from the spec: the declared type `kernel` of package `snap`. -/
def TypeKernel : String := "kernel"

/-- The fields and accessors of `snap.Info` that `checkSnap` reads: `Name` and
`NeedsDevMode` hold the results of the methods of these names, `Type_` is the
field `Type`. -/
structure Info where
  Name : String
  Architectures : List String
  Type_ : String
  Assumes : List String
  NeedsDevMode : Bool

/-- Side information of a candidate, not inspected here. -/
structure SideInfo where
  key : String

/-- The install flags, of which only the result of `DevModeAllowed` is read. -/
structure Flags where
  DevModeAllowed : Bool

/-- The state store as far as `checkSnap` acts on it: `held` counts the
outstanding acquisitions of its lock.  Blocking on a held lock is not
modelled. -/
structure State where
  held : Nat

/-- Embedding of `st.Lock()`. -/
def State.Lock (st : State) : State := ⟨st.held + 1⟩

/-- Embedding of `st.Unlock()`. -/
def State.Unlock (st : State) : State := ⟨st.held - 1⟩

/-- The collaborators of `checkSnap`: package variables and functions of other
packages. -/
structure Env where
  openSnapFile : String → Option SideInfo → Except Error Info
  IsSupportedArchitecture : List String → Bool
  UbuntuArchitecture : String
  /-- The hook variable; `none` is the nil function. -/
  CheckInterfaces : Option (State → Info → Option Error)
  CoreInfo : State → Except Error Info
  GadgetInfo : State → Except Error Info
  OnClassic : Bool
  /-- The printable table that `%q` consults. -/
  printTable : PrintTable

/-- Ghost record of the collaborator calls `checkSnap` makes. -/
inductive Event where
  | openSnapFile
  | Lock
  | Unlock
  | CheckInterfaces
  | CoreInfo
  | GadgetInfo
deriving DecidableEq

/-- How a call ends: it returns an error value (`none` is nil) or panics. -/
inductive Outcome where
  | ret (err : Option Error)
  | panicked (msg : String)
deriving DecidableEq

/-- Result of a run of `checkSnap`: how it ended, the state store at the end,
and the collaborator calls made, in order. -/
structure Result where
  outcome : Outcome
  st : State
  trace : List Event

/-- The flag values that can be listed in assumes entries. -/
def featureSet : List (String × Bool) :=
  [("common-data-dir", true), ("snap-env", true)]

/-- Go map read `featureSet[flag]`: `false` for an absent key. -/
def featureSetGet (flag : String) : Bool := (featureSet.lookup flag).getD false

/-- The loop of `checkAssumes`: appends to `missing` each flag that the
feature set does not provide. -/
def missingLoop : List String → List String → List String
  | missing, [] => missing
  | missing, flag :: rest =>
    if !featureSetGet flag then missingLoop (missing ++ [flag]) rest
    else missingLoop missing rest

/-- Embedding of `checkAssumes`; `tbl` is the printable table that `%q`
consults. -/
def checkAssumes (tbl : PrintTable) (s : Info) : Option Error :=
  let missing := missingLoop [] s.Assumes
  if missing.length > 0 then
    some (.errorf ("snap " ++ Quote tbl s.Name ++ " assumes unsupported features: " ++
      Join missing ", " ++ " (try new ubuntu-core)"))
  else none

/-- The `switch s.Type` of `checkSnap` and the panic after it; `st` is the
locked state store. -/
def typeDispatch (env : Env) (st : State) (s : Info) (curInfo : Option Info) :
    Outcome × List Event :=
  if s.Type_ = "" ∨ s.Type_ = TypeApp ∨ s.Type_ = TypeKernel then (.ret none, [])
  else if s.Type_ = TypeOS then
    match curInfo with
    | some _ => (.ret none, [])
    | none =>
      match env.CoreInfo st with
      | .error err =>
        if err = .ErrNoState then (.ret none, [.CoreInfo])
        else (.ret (some err), [.CoreInfo])
      | .ok core =>
        if core.Name ≠ s.Name then
          (.ret (some (.errorf ("cannot install core snap " ++
            Quote env.printTable s.Name ++ " when core snap " ++
            Quote env.printTable core.Name ++ " is already present"))), [.CoreInfo])
        else (.ret none, [.CoreInfo])
  else if s.Type_ = TypeGadget then
    if env.OnClassic then
      (.ret (some (.errorf "cannot install a gadget snap on classic")), [])
    else
      match env.GadgetInfo st with
      | .error err =>
        if err = .ErrNoState then (.ret none, [.GadgetInfo])
        else (.ret (some (.errorf "cannot find original gadget snap")), [.GadgetInfo])
      | .ok currentGadget =>
        if currentGadget.Name ≠ s.Name then
          (.ret (some (.errorf "cannot replace gadget snap with a different one")),
            [.GadgetInfo])
        else (.ret none, [.GadgetInfo])
  else (.panicked "unknown type", [])

/-- The statements of `checkSnap` that run with the lock held: the hook, then
the type dispatch. -/
def checkSnapLocked (env : Env) (st : State) (s : Info) (curInfo : Option Info) :
    Outcome × List Event :=
  match env.CheckInterfaces with
  | some hook =>
    match hook st s with
    | some err => (.ret (some err), [.CheckInterfaces])
    | none => ((typeDispatch env st s curInfo).1,
        .CheckInterfaces :: (typeDispatch env st s curInfo).2)
  | none => typeDispatch env st s curInfo

/-- Embedding of `checkSnap`.  The deferred `st.Unlock()` runs on every way
out of the locked part, the panic included. -/
def checkSnap (env : Env) (st : State) (snapFilePath : String) (si : Option SideInfo)
    (curInfo : Option Info) (flags : Flags) : Result :=
  match env.openSnapFile snapFilePath si with
  | .error err => ⟨.ret (some err), st, [.openSnapFile]⟩
  | .ok s =>
    if s.NeedsDevMode && !flags.DevModeAllowed then
      ⟨.ret (some (.errorf ("snap " ++ Quote env.printTable s.Name ++
        " requires devmode or confinement override"))), st, [.openSnapFile]⟩
    else if !env.IsSupportedArchitecture s.Architectures then
      ⟨.ret (some (.errorf ("snap " ++ Quote env.printTable s.Name ++
        " supported architectures (" ++
        Join s.Architectures ", " ++ ") are incompatible with this system (" ++
        env.UbuntuArchitecture ++ ")"))), st, [.openSnapFile]⟩
    else
      match checkAssumes env.printTable s with
      | some err => ⟨.ret (some err), st, [.openSnapFile]⟩
      | none =>
        ⟨(checkSnapLocked env st.Lock s curInfo).1, st.Lock.Unlock,
          [.openSnapFile, .Lock] ++ (checkSnapLocked env st.Lock s curInfo).2 ++ [.Unlock]⟩

/-- The devmode, architecture, assumes and interface-hook gates of `checkSnap`
all pass for the candidate `s`. -/
def GatesPass (env : Env) (st : State) (s : Info) (flags : Flags) : Prop :=
  (s.NeedsDevMode = false ∨ flags.DevModeAllowed = true) ∧
  env.IsSupportedArchitecture s.Architectures = true ∧
  checkAssumes env.printTable s = none ∧
  ∀ hook, env.CheckInterfaces = some hook → hook st.Lock s = none

/-- A collaborator set for worked examples: every candidate opens as `s`, all
architectures are supported, no hook is registered, and the recorded OS and
gadget are as given. -/
def sampleEnv (s : Info) (core gadget : Except Error Info) (classic : Bool) : Env where
  openSnapFile := fun _ _ => .ok s
  IsSupportedArchitecture := fun _ => true
  UbuntuArchitecture := "amd64"
  CheckInterfaces := none
  CoreInfo := fun _ => core
  GadgetInfo := fun _ => gadget
  OnClassic := classic
  printTable := samplePrintTable

/-- A candidate named `name` of type `ty` with the assumes list `assumes`. -/
def sampleInfo (name ty : String) (assumes : List String) : Info :=
  ⟨name, ["amd64"], ty, assumes, false⟩

/-- Lock monitor: walks the recorded calls with the number `held` of
outstanding acquisitions.  It rejects a hook or lookup call made while the
lock is not held and a release of a lock that is not held, and accepts at the
end exactly when nothing is outstanding. -/
def lockDiscipline : Nat → List Event → Bool
  | held, [] => held == 0
  | held, .Lock :: t => lockDiscipline (held + 1) t
  | 0, .Unlock :: _ => false
  | held + 1, .Unlock :: t => lockDiscipline held t
  | held, .openSnapFile :: t => lockDiscipline held t
  | 0, .CheckInterfaces :: _ => false
  | 0, .CoreInfo :: _ => false
  | 0, .GadgetInfo :: _ => false
  | held + 1, .CheckInterfaces :: t => lockDiscipline (held + 1) t
  | held + 1, .CoreInfo :: t => lockDiscipline (held + 1) t
  | held + 1, .GadgetInfo :: t => lockDiscipline (held + 1) t

/-- The candidate fails at the open, devmode, architecture or assumes gate. -/
def FailsBeforeLock (env : Env) (path : String) (si : Option SideInfo) (flags : Flags) :
    Prop :=
  ∀ s, env.openSnapFile path si = .ok s →
    (s.NeedsDevMode = true ∧ flags.DevModeAllowed = false) ∨
    env.IsSupportedArchitecture s.Architectures = false ∨
    checkAssumes env.printTable s ≠ none

/-- Reference definition of the rejection message of `checkAssumes`, in the
words of the specification: the name between double quotes, then the flags of
the list that are not in the feature set, in order and with repetitions. -/
def rejectionMessageSpec (name : String) (assumes : List String) : String :=
  "snap \"" ++ name ++ "\" assumes unsupported features: " ++
    Join (assumes.filter (fun f => !featureSetGet f)) ", " ++ " (try new ubuntu-core)"

/-- A name made of printable ASCII characters other than the double quote and
the backslash. -/
def PlainName (name : String) : Prop :=
  ∀ c ∈ name.data, 32 ≤ c.toNat ∧ c.toNat < 127 ∧ c ≠ Char.ofNat 34 ∧ c ≠ Char.ofNat 92

end Snapstate

namespace Partition

open GoStrings

/-- An error value of package `partition`. -/
inductive BootError where
  /-- The sentinel `ErrBootloader`, "cannot determine bootloader". -/
  | ErrBootloader
  /-- An error built by `fmt.Errorf`, with its message. -/
  | errorf (msg : String)
  /-- Any other error value of a collaborator. -/
  | other (id : Nat)
deriving DecidableEq

/-- The value held by a `Bootloader` interface variable: one of the two
backends, or another implementation such as a test double. -/
inductive Backend where
  | uboot
  | grub
  | custom (id : Nat)
deriving DecidableEq

/-- What probing finds on the running system. -/
structure System where
  ubootPresent : Bool
  grubPresent : Bool

/-- Modelled from the spec: `newUboot` gives the environment-file backend when
it is present on the system and nil otherwise (its source is not at hand). -/
def newUboot (sys : System) : Option Backend :=
  if sys.ubootPresent then some .uboot else none

/-- Modelled from the spec: `newGrub` gives the GRUB-style backend when it is
present on the system and nil otherwise (its source is not at hand). -/
def newGrub (sys : System) : Option Backend :=
  if sys.grubPresent then some .grub else none

/-- Ghost record of the probes `FindBootloader` makes. -/
inductive Probe where
  | newUboot
  | newGrub
deriving DecidableEq

/-- Embedding of `FindBootloader`; the package variable `forcedBootloader` is
the first argument. -/
def FindBootloader (forcedBootloader : Option Backend) (sys : System) :
    Except BootError Backend × List Probe :=
  match forcedBootloader with
  | some b => (.ok b, [])
  | none =>
    match newUboot sys with
    | some ub => (.ok ub, [.newUboot])
    | none =>
      match newGrub sys with
      | some gr => (.ok gr, [.newUboot, .newGrub])
      | none => (.error .ErrBootloader, [.newUboot, .newGrub])

/-- Embedding of `ForceBootloader`: the new value of the package variable
`forcedBootloader`, whatever the old one was. -/
def ForceBootloader (_forcedBootloader : Option Backend) (booloader : Option Backend) :
    Option Backend :=
  booloader

/-- Modelled from the spec: the copy flags of package `osutil`, of which the
installer uses the overwrite flag. -/
inductive CopyFlag where
  | CopyFlagDefault
  | CopyFlagSync
  | CopyFlagOverwrite
deriving DecidableEq

/-- The collaborators of `InstallBootConfig`: the config file path of each
backend, `filepath.Base`, `filepath.Dir`, the file search `find`,
`os.MkdirAll` and `osutil.CopyFile`. -/
structure InstallEnv where
  ConfigFile : Backend → String
  Base : String → String
  Dir : String → String
  find : String → String → Except BootError String
  MkdirAll : String → Nat → Option BootError
  CopyFile : String → String → CopyFlag → Option BootError
  /-- The printable table that `%q` consults. -/
  printTable : PrintTable

/-- Ghost record of the file-system calls `InstallBootConfig` makes. -/
inductive FsCall where
  | find (dir name : String)
  | MkdirAll (path : String) (perm : Nat)
  | CopyFile (src dst : String) (flags : CopyFlag)
deriving DecidableEq

/-- The loop of `InstallBootConfig` over the backends still to try, and the
error after the loop. -/
def installLoop (env : InstallEnv) (gadgetDir : String) :
    List Backend → List FsCall → Option BootError × List FsCall
  | [], t =>
    (some (.errorf ("cannot find boot config in " ++ Quote env.printTable gadgetDir)), t)
  | bl :: rest, t =>
    match env.find gadgetDir (env.Base (env.ConfigFile bl)) with
    | .error _ =>
      installLoop env gadgetDir rest (t ++ [.find gadgetDir (env.Base (env.ConfigFile bl))])
    | .ok fn =>
      let dst := env.ConfigFile bl
      match env.MkdirAll (env.Dir dst) 0o755 with
      | some err =>
        (some err, t ++ [.find gadgetDir (env.Base (env.ConfigFile bl)),
          .MkdirAll (env.Dir dst) 0o755])
      | none =>
        (env.CopyFile fn dst .CopyFlagOverwrite,
          t ++ [.find gadgetDir (env.Base (env.ConfigFile bl)),
            .MkdirAll (env.Dir dst) 0o755, .CopyFile fn dst .CopyFlagOverwrite])

/-- Embedding of `InstallBootConfig`. -/
def InstallBootConfig (env : InstallEnv) (gadgetDir : String) :
    Option BootError × List FsCall :=
  installLoop env gadgetDir [.grub, .uboot] []

/-- The recorded call is a copy. -/
def FsCall.isCopy : FsCall → Bool
  | .CopyFile _ _ _ => true
  | _ => false

/-- A gadget directory `/gadget` holding `grub.cfg` only, on a system where
directory creation and copying succeed. -/
def grubGadgetEnv : InstallEnv where
  ConfigFile := fun b =>
    match b with
    | .grub => "/boot/grub/grub.cfg"
    | .uboot => "/boot/uboot/uEnv.txt"
    | .custom _ => ""
  Base := fun path =>
    if path = "/boot/grub/grub.cfg" then "grub.cfg"
    else if path = "/boot/uboot/uEnv.txt" then "uEnv.txt" else path
  Dir := fun path =>
    if path = "/boot/grub/grub.cfg" then "/boot/grub"
    else if path = "/boot/uboot/uEnv.txt" then "/boot/uboot" else path
  find := fun dir name =>
    if dir = "/gadget" ∧ name = "grub.cfg" then .ok "/gadget/grub.cfg" else .error (.other 2)
  MkdirAll := fun _ _ => none
  CopyFile := fun _ _ _ => none
  printTable := samplePrintTable

/-- The calls the success marker may issue: a read of `snappy_os` or
`snappy_kernel`, a write of one of the two mirrors, the write of "regular" to
`snappy_mode`, and the write of "0" to `snappy_trial_boot`. -/
def Call.allowed : Call → Bool
  | .get name => name == "snappy_os" || name == "snappy_kernel"
  | .set name value =>
    name == "snappy_good_os" || name == "snappy_good_kernel" ||
    (name == "snappy_mode" && value == "regular") ||
    (name == "snappy_trial_boot" && value == "0")

/-- The four variables the success marker writes. -/
def markedVars : List String :=
  ["snappy_good_os", "snappy_good_kernel", "snappy_mode", "snappy_trial_boot"]

/-- A bootloader over a map whose reads leave the map alone and whose writes,
failing or not, change at most the variable written. -/
def FrameRespecting {ε : Type} (bl : Bootloader Store ε) : Prop :=
  (∀ m name, (bl.GetBootVar m name).2 = m) ∧
  (∀ m name value k, k ≠ name → (bl.SetBootVar m name value).2 k = m k)

/-- A store whose boot mode holds a foreign value. -/
def foreignStore : Store := fun k =>
  if k = "snappy_os" then some "core_1"
  else if k = "snappy_kernel" then some "kernel_1"
  else if k = "snappy_mode" then some "foreign"
  else none

end Partition

namespace GoStrings

theorem isPrint_latin1 (tbl1 tbl2 : PrintTable) (c : Char) (h : c.toNat ≤ 255) :
    IsPrint tbl1 c = IsPrint tbl2 c := by
  simp [IsPrint, h]

theorem quoteRune_latin1 (tbl1 tbl2 : PrintTable) (c : Char) (h : c.toNat ≤ 255) :
    quoteRune tbl1 c = quoteRune tbl2 c := by
  simp only [quoteRune, isPrint_latin1 tbl1 tbl2 c h]

/-- On a string of Latin-1 characters `%q` does not consult the table. -/
theorem Quote_latin1 (tbl1 tbl2 : PrintTable) (s : String)
    (h : ∀ c ∈ s.data, c.toNat ≤ 255) : Quote tbl1 s = Quote tbl2 s := by
  have hl : ∀ l : List Char, (∀ c ∈ l, c.toNat ≤ 255) →
      l.flatMap (quoteRune tbl1) = l.flatMap (quoteRune tbl2) := by
    intro l
    induction l with
    | nil => intro _; rfl
    | cons a rest ih =>
      intro hl
      rw [List.flatMap_cons, List.flatMap_cons,
        quoteRune_latin1 tbl1 tbl2 a (hl a (List.mem_cons_self _ _)),
        ih (fun c hc => hl c (List.mem_cons_of_mem _ hc))]
  simp only [Quote, hl s.data h]

theorem quoteRune_plain (tbl : PrintTable) (c : Char)
    (h : 32 ≤ c.toNat ∧ c.toNat < 127 ∧ c ≠ Char.ofNat 34 ∧ c ≠ Char.ofNat 92) :
    quoteRune tbl c = [c] := by
  obtain ⟨h1, h2, h3, h4⟩ := h
  have h5 : c.toNat ≤ 255 := by omega
  have h6 : c.toNat ≤ 126 := by omega
  simp [quoteRune, IsPrint, h1, h3, h4, h5, h6]

theorem flatMap_quoteRune_plain (tbl : PrintTable) (l : List Char)
    (h : ∀ c ∈ l, 32 ≤ c.toNat ∧ c.toNat < 127 ∧ c ≠ Char.ofNat 34 ∧ c ≠ Char.ofNat 92) :
    l.flatMap (quoteRune tbl) = l := by
  induction l with
  | nil => rfl
  | cons a rest ih =>
    rw [List.flatMap_cons, quoteRune_plain tbl a (h a (List.mem_cons_self _ _)),
      ih (fun c hc => h c (List.mem_cons_of_mem _ hc))]
    rfl

/-- The verb `%q` on a string of printable ASCII characters other than the
double quote and the backslash puts the string between double quotes. -/
theorem quote_plain (tbl : PrintTable) (name : String)
    (h : ∀ c ∈ name.data,
      32 ≤ c.toNat ∧ c.toNat < 127 ∧ c ≠ Char.ofNat 34 ∧ c ≠ Char.ofNat 92) :
    Quote tbl name = "\"" ++ name ++ "\"" := by
  apply String.ext
  simp only [Quote, String.data_append, flatMap_quoteRune_plain tbl name.data h]
  rfl

end GoStrings

namespace Partition

theorem replace_os :
    GoStrings.Replace "snappy_os" "snappy_" "snappy_good_" = "snappy_good_os" := by decide

theorem replace_kernel :
    GoStrings.Replace "snappy_kernel" "snappy_" "snappy_good_" = "snappy_good_kernel" := by
  decide

/-- The run of the marker on a map-backed store, call by call. -/
theorem mark_map (ε : Type) (m : Store) :
    MarkBootSuccessful (mapBootloader ε) m =
      let m1 := m.write "snappy_good_os" (m.read "snappy_os")
      let m2 := m1.write "snappy_mode" "regular"
      let m3 := m2.write "snappy_trial_boot" "0"
      let m4 := m3.write "snappy_good_kernel" (m.read "snappy_kernel")
      let m5 := m4.write "snappy_mode" "regular"
      let m6 := m5.write "snappy_trial_boot" "0"
      ⟨none, m6,
        [(.get "snappy_os", m), (.set "snappy_good_os" (m.read "snappy_os"), m1),
         (.set "snappy_mode" "regular", m2), (.set "snappy_trial_boot" "0", m3),
         (.get "snappy_kernel", m3),
         (.set "snappy_good_kernel" (m.read "snappy_kernel"), m4),
         (.set "snappy_mode" "regular", m5), (.set "snappy_trial_boot" "0", m6)]⟩ := by
  simp [MarkBootSuccessful, markLoop, markBody, mapBootloader, replace_os, replace_kernel,
    modeSuccess, Store.write, Store.read]

/-- C1: on a map-backed store `MarkBootSuccessful` returns nil, and afterwards
`snappy_good_os` holds the initial value of `snappy_os`, `snappy_good_kernel`
the initial value of `snappy_kernel`, `snappy_mode` is "regular" and
`snappy_trial_boot` is "0". -/
theorem markBootSuccessful_map_result (ε : Type) (m : Store) :
    (MarkBootSuccessful (mapBootloader ε) m).err = none ∧
    (MarkBootSuccessful (mapBootloader ε) m).st "snappy_good_os" = some (m.read "snappy_os") ∧
    (MarkBootSuccessful (mapBootloader ε) m).st "snappy_good_kernel"
      = some (m.read "snappy_kernel") ∧
    (MarkBootSuccessful (mapBootloader ε) m).st "snappy_mode" = some "regular" ∧
    (MarkBootSuccessful (mapBootloader ε) m).st "snappy_trial_boot" = some "0" := by
  rw [mark_map]
  simp [Store.write]

/-- The worked example of C1: the store with `snappy_os="core_1"`,
`snappy_kernel="kernel_1"`, `snappy_mode="try"`, `snappy_trial_boot="1"`. -/
theorem markBootSuccessful_map_result_witness :
    (MarkBootSuccessful (mapBootloader String) trialStore).err = none ∧
    (MarkBootSuccessful (mapBootloader String) trialStore).st "snappy_good_os" = some "core_1" ∧
    (MarkBootSuccessful (mapBootloader String) trialStore).st "snappy_good_kernel" = some "kernel_1" ∧
    (MarkBootSuccessful (mapBootloader String) trialStore).st "snappy_mode" = some "regular" ∧
    (MarkBootSuccessful (mapBootloader String) trialStore).st "snappy_trial_boot" = some "0" :=
  markBootSuccessful_map_result String trialStore

/-- C2, as stated, fails: on `staleStore` (mode "try", kernel mirror
`kernel_1`, kernel `kernel_2`) the store reached after the first write of
`snappy_mode` has mode "regular" while `snappy_good_kernel` is still stale. -/
theorem mode_flip_before_kernel_mirror :
    ¬ ∀ m : Store, m.read "snappy_mode" = "try" →
      ∀ e ∈ (MarkBootSuccessful (mapBootloader String) m).trace,
        e.2.read "snappy_mode" = "regular" →
          e.2.read "snappy_good_os" = e.2.read "snappy_os" ∧
          e.2.read "snappy_good_kernel" = e.2.read "snappy_kernel" := by
  intro h
  have h1 := h staleStore (by decide)
    (.set "snappy_mode" "regular",
      (staleStore.write "snappy_good_os" "core_2").write "snappy_mode" "regular")
    (by rw [mark_map]; simp [Store.read, staleStore]) (by decide)
  revert h1
  decide

/-- C2, amended: from a map-backed store with mode "try", the mode is still
"try" in the stores reached by the first two calls; in every intermediate
store, mode "regular" implies that the OS mirror is updated; and the kernel
mirror is updated in every store reached from the write of
`snappy_good_kernel` (the sixth call) on. -/
theorem mirror_before_own_mode_flip (ε : Type) (m : Store)
    (hm : m.read "snappy_mode" = "try") :
    (∀ e ∈ (MarkBootSuccessful (mapBootloader ε) m).trace.take 2,
      e.2.read "snappy_mode" = "try") ∧
    (∀ e ∈ (MarkBootSuccessful (mapBootloader ε) m).trace,
      e.2.read "snappy_mode" = "regular" →
        e.2.read "snappy_good_os" = e.2.read "snappy_os") ∧
    (∀ e ∈ (MarkBootSuccessful (mapBootloader ε) m).trace.drop 5,
      e.2.read "snappy_good_kernel" = e.2.read "snappy_kernel") := by
  rw [mark_map]
  simp only [Store.read] at hm
  refine ⟨?_, ?_, ?_⟩
  · simp [Store.read, Store.write, hm]
  · simp [Store.read, Store.write, hm, modeTry]
  · simp [Store.read, Store.write]

theorem mirror_before_own_mode_flip_witness :
    trialStore.read "snappy_mode" = "try" ∧
    ((∀ e ∈ (MarkBootSuccessful (mapBootloader String) trialStore).trace.take 2,
      e.2.read "snappy_mode" = "try") ∧
    (∀ e ∈ (MarkBootSuccessful (mapBootloader String) trialStore).trace,
      e.2.read "snappy_mode" = "regular" →
        e.2.read "snappy_good_os" = e.2.read "snappy_os") ∧
    (∀ e ∈ (MarkBootSuccessful (mapBootloader String) trialStore).trace.drop 5,
      e.2.read "snappy_good_kernel" = e.2.read "snappy_kernel")) :=
  ⟨by decide, mirror_before_own_mode_flip String trialStore (by decide)⟩

theorem lastStore_append {σ : Type} (s : σ) (t1 t2 : List (Call × σ)) :
    lastStore s (t1 ++ t2) = lastStore (lastStore s t1) t2 := by
  induction t1 generalizing s with
  | nil => rfl
  | cons a rest ih => exact ih a.2

theorem stops_append {σ ε : Type} (bl : Bootloader σ ε) (t1 t2 : List (Call × σ))
    (r : Option ε) :
    ∀ s : σ, StopsAtFirstFailure bl s t1 none →
      StopsAtFirstFailure bl (lastStore s t1) t2 r →
      StopsAtFirstFailure bl s (t1 ++ t2) r := by
  induction t1 with
  | nil => intro s _ h; simpa [lastStore] using h
  | cons a rest ih =>
    intro s h1 h2
    obtain ⟨c, s1⟩ := a
    simp only [StopsAtFirstFailure] at h1
    obtain ⟨hs, hm⟩ := h1
    simp only [List.cons_append, StopsAtFirstFailure]
    refine ⟨hs, ?_⟩
    cases hx : (bl.exec s c).1 with
    | some e => rw [hx] at hm; simp at hm
    | none =>
      rw [hx] at hm
      simp only
      exact ih s1 hm h2

theorem markBody_stops {σ ε : Type} (bl : Bootloader σ ε) (k : String) (s : σ) :
    StopsAtFirstFailure bl s (markBody bl k s).2.2 (markBody bl k s).1 ∧
    (markBody bl k s).2.1 = lastStore s (markBody bl k s).2.2 := by
  unfold markBody
  rcases h1 : bl.GetBootVar s k with ⟨_ | v, s1⟩
  · simp [StopsAtFirstFailure, Bootloader.exec, lastStore, h1]
  · rcases h2 : bl.SetBootVar s1 (GoStrings.Replace k "snappy_" "snappy_good_") v
      with ⟨_ | e2, s2⟩
    · rcases h3 : bl.SetBootVar s2 "snappy_mode" modeSuccess with ⟨_ | e3, s3⟩
      · rcases h4 : bl.SetBootVar s3 "snappy_trial_boot" "0" with ⟨_ | e4, s4⟩
        · simp [StopsAtFirstFailure, Bootloader.exec, lastStore, h1, h2, h3, h4]
        · simp [StopsAtFirstFailure, Bootloader.exec, lastStore, h1, h2, h3, h4]
      · simp [StopsAtFirstFailure, Bootloader.exec, lastStore, h1, h2, h3]
    · simp [StopsAtFirstFailure, Bootloader.exec, lastStore, h1, h2]

theorem markLoop_stops {σ ε : Type} (bl : Bootloader σ ε) (s0 : σ) :
    ∀ (ks : List String) (s : σ) (t : List (Call × σ)),
      StopsAtFirstFailure bl s0 t none → lastStore s0 t = s →
      StopsAtFirstFailure bl s0 (markLoop bl ks s t).trace (markLoop bl ks s t).err ∧
      (markLoop bl ks s t).st = lastStore s0 (markLoop bl ks s t).trace := by
  intro ks
  induction ks with
  | nil => intro s t h1 h2; simp [markLoop, h1, h2]
  | cons k ks ih =>
    intro s t h1 h2
    have hb := markBody_stops bl k s
    unfold markLoop
    rcases hk : markBody bl k s with ⟨_ | e, s1, t1⟩
    · rw [hk] at hb
      simp only at hb
      apply ih
      · apply stops_append _ _ _ _ _ h1
        rw [h2]; exact hb.1
      · rw [lastStore_append, h2]; exact hb.2.symm
    · rw [hk] at hb
      simp only at hb
      refine ⟨?_, ?_⟩
      · apply stops_append _ _ _ _ _ h1
        rw [h2]; exact hb.1
      · simp only [lastStore_append, h2]; exact hb.2

/-- C3: for every bootloader, the calls `MarkBootSuccessful` issues replay
from the initial storage; a call that fails is the last call issued and its
error is the result (nil when no call fails); and the storage at return is
the one the last call left. -/
theorem markBootSuccessful_stops_at_first_failure {σ ε : Type} (bl : Bootloader σ ε)
    (s : σ) :
    StopsAtFirstFailure bl s (MarkBootSuccessful bl s).trace (MarkBootSuccessful bl s).err ∧
    (MarkBootSuccessful bl s).st = lastStore s (MarkBootSuccessful bl s).trace :=
  markLoop_stops bl s _ s [] rfl rfl

/-- The worked example of C3: when the write of `snappy_mode` fails, the run
returns that error after three calls and the trial-boot flag and the kernel
mirror are untouched. -/
theorem markBootSuccessful_stops_at_first_failure_witness :
    (StopsAtFirstFailure modeLockedBootloader trialStore
      (MarkBootSuccessful modeLockedBootloader trialStore).trace
      (MarkBootSuccessful modeLockedBootloader trialStore).err ∧
    (MarkBootSuccessful modeLockedBootloader trialStore).st =
      lastStore trialStore (MarkBootSuccessful modeLockedBootloader trialStore).trace) ∧
    (MarkBootSuccessful modeLockedBootloader trialStore).err = some "EROFS" ∧
    (MarkBootSuccessful modeLockedBootloader trialStore).trace.map Prod.fst =
      [.get "snappy_os", .set "snappy_good_os" "core_1", .set "snappy_mode" "regular"] ∧
    (MarkBootSuccessful modeLockedBootloader trialStore).st "snappy_trial_boot" = some "1" ∧
    (MarkBootSuccessful modeLockedBootloader trialStore).st "snappy_good_kernel" = none :=
  ⟨markBootSuccessful_stops_at_first_failure modeLockedBootloader trialStore,
    by decide, by decide, by decide, by decide⟩

end Partition

namespace Snapstate

open GoStrings

theorem missingLoop_eq (l : List String) :
    ∀ acc : List String,
      missingLoop acc l = acc ++ l.filter (fun f => !featureSetGet f) := by
  induction l with
  | nil => intro acc; simp [missingLoop]
  | cons a rest ih =>
    intro acc
    cases h : featureSetGet a <;> simp [missingLoop, h, ih]

theorem featureSetGet_iff (f : String) :
    featureSetGet f = true ↔ f ∈ featureSet.map Prod.fst := by
  by_cases h1 : f = "common-data-dir"
  · subst h1; decide
  · by_cases h2 : f = "snap-env"
    · subst h2; decide
    · have e1 : (f == "common-data-dir") = false := by simpa using h1
      have e2 : (f == "snap-env") = false := by simpa using h2
      simp [featureSetGet, featureSet, List.lookup, h1, h2, e1, e2]

theorem checkAssumes_eq (tbl : PrintTable) (s : Info) :
    checkAssumes tbl s =
      if 0 < (s.Assumes.filter (fun f => !featureSetGet f)).length then
        some (.errorf ("snap " ++ Quote tbl s.Name ++ " assumes unsupported features: " ++
          Join (s.Assumes.filter (fun f => !featureSetGet f)) ", " ++
          " (try new ubuntu-core)"))
      else none := by
  simp [checkAssumes, missingLoop_eq]

/-- C4: `checkAssumes` returns nil exactly when every flag of the Assumes list
is a key of the feature set, so also for the empty list; in every other case
it returns one error. -/
theorem checkAssumes_nil_iff (tbl : PrintTable) (s : Info) :
    (checkAssumes tbl s = none ↔ ∀ f ∈ s.Assumes, f ∈ featureSet.map Prod.fst) ∧
    (s.Assumes = [] → checkAssumes tbl s = none) ∧
    (¬ (∀ f ∈ s.Assumes, f ∈ featureSet.map Prod.fst) →
      ∃ msg, checkAssumes tbl s = some (.errorf msg)) := by
  have key : checkAssumes tbl s = none ↔ ∀ f ∈ s.Assumes, f ∈ featureSet.map Prod.fst := by
    rw [checkAssumes_eq]
    simp only [← featureSetGet_iff]
    by_cases h : 0 < (s.Assumes.filter (fun f => !featureSetGet f)).length
    · simp only [h, if_true]
      obtain ⟨f, hf⟩ := List.exists_mem_of_length_pos h
      simp only [List.mem_filter] at hf
      constructor
      · intro h0; cases h0
      · intro hall
        have := hall f hf.1
        simp [this] at hf
    · simp only [h, if_false, true_iff]
      intro f hf
      by_contra hc
      apply h
      have hmem : f ∈ s.Assumes.filter (fun f => !featureSetGet f) := by
        simp [List.mem_filter, hf, hc]
      exact List.length_pos_of_mem hmem
  refine ⟨key, ?_, ?_⟩
  · intro h
    rw [key, h]
    simp
  · intro h
    rw [← key] at h
    rw [checkAssumes_eq] at h ⊢
    split at h
    · rename_i hpos
      rw [if_pos hpos]
      exact ⟨_, rfl⟩
    · exact absurd rfl h

theorem checkAssumes_nil_iff_witness :
    (checkAssumes samplePrintTable
      (sampleInfo "foo" "app" ["snap-env", "common-data-dir"]) = none) ∧
    (∃ msg, checkAssumes samplePrintTable (sampleInfo "foo" "app" ["snap-env", "f1", "f2"])
      = some (.errorf msg)) :=
  ⟨(checkAssumes_nil_iff samplePrintTable
      (sampleInfo "foo" "app" ["snap-env", "common-data-dir"])).1.2
      (by decide),
   (checkAssumes_nil_iff samplePrintTable (sampleInfo "foo" "app" ["snap-env", "f1", "f2"])).2.2
      (by decide)⟩

theorem checkAssumes_latin1 (tbl1 tbl2 : PrintTable) (s : Info)
    (h : ∀ c ∈ s.Name.data, c.toNat ≤ 255) :
    checkAssumes tbl1 s = checkAssumes tbl2 s := by
  simp only [checkAssumes, Quote_latin1 tbl1 tbl2 s.Name h]

/-- C5, as stated, fails: for the Assumes list `["x", "x"]` the message is
`snap "foo" assumes unsupported features: x, x (try new ubuntu-core)`, which is
not the comma-join of any list naming the unsupported flag `x` exactly once. -/
theorem checkAssumes_repeats_duplicates :
    ¬ ∃ tbl : PrintTable, ∀ s : Info, (∃ f ∈ s.Assumes, featureSetGet f = false) →
      ∃ missing : List String,
        checkAssumes tbl s = some (.errorf ("snap " ++ Quote tbl s.Name ++
          " assumes unsupported features: " ++ Join missing ", " ++
          " (try new ubuntu-core)")) ∧
        (∀ f ∈ s.Assumes, featureSetGet f = false → missing.count f = 1) ∧
        (∀ f ∈ missing, f ∈ s.Assumes ∧ featureSetGet f = false) := by
  rintro ⟨tbl, h⟩
  obtain ⟨missing, hmsg, hcount, hmem⟩ :=
    h (sampleInfo "foo" "app" ["x", "x"]) ⟨"x", by decide, by decide⟩
  have hx : ∀ f ∈ missing, f = "x" := by
    intro f hf
    have := (hmem f hf).1
    simpa [sampleInfo] using this
  have hrep : missing = List.replicate missing.length "x" :=
    List.eq_replicate_iff.mpr ⟨rfl, hx⟩
  have hc : missing.count "x" = 1 := hcount "x" (by decide) (by decide)
  rw [hrep, List.count_replicate_self] at hc
  rw [hc] at hrep
  subst hrep
  rw [checkAssumes_latin1 tbl samplePrintTable _ (by decide),
    Quote_latin1 tbl samplePrintTable _ (by decide)] at hmsg
  revert hmsg
  decide

/-- C5, amended: for an Assumes list with at least one unsupported flag, the
message is the fixed text around the comma-join of the unsupported flags of the
list in list order; an unsupported flag is named once for each of its
occurrences in the list (exactly once when the list has no duplicates) and no
supported flag is named. -/
theorem checkAssumes_names_each_occurrence (tbl : PrintTable) (s : Info)
    (h : ∃ f ∈ s.Assumes, featureSetGet f = false) :
    checkAssumes tbl s = some (.errorf ("snap " ++ Quote tbl s.Name ++
      " assumes unsupported features: " ++
      Join (s.Assumes.filter (fun f => !featureSetGet f)) ", " ++
      " (try new ubuntu-core)")) ∧
    (∀ f, featureSetGet f = false →
      (s.Assumes.filter (fun f => !featureSetGet f)).count f = s.Assumes.count f) ∧
    (∀ f, featureSetGet f = true →
      (s.Assumes.filter (fun f => !featureSetGet f)).count f = 0) ∧
    (s.Assumes.Nodup → ∀ f ∈ s.Assumes, featureSetGet f = false →
      (s.Assumes.filter (fun f => !featureSetGet f)).count f = 1) := by
  have hcount : ∀ f, featureSetGet f = false →
      (s.Assumes.filter (fun f => !featureSetGet f)).count f = s.Assumes.count f := by
    intro f hf
    rw [List.count_filter]
    simp [hf]
  refine ⟨?_, hcount, ?_, ?_⟩
  · rw [checkAssumes_eq, if_pos]
    obtain ⟨f, hf, hu⟩ := h
    have hmem : f ∈ s.Assumes.filter (fun f => !featureSetGet f) := by
      simp [List.mem_filter, hf, hu]
    exact List.length_pos_of_mem hmem
  · intro f hf
    rw [List.count_eq_zero]
    simp [List.mem_filter, hf]
  · intro hnd f hf hu
    rw [hcount f hu]
    exact List.count_eq_one_of_mem hnd hf

theorem checkAssumes_names_each_occurrence_witness :
    (∃ f ∈ (sampleInfo "foo" "app" ["f1", "snap-env", "f2", "f1"]).Assumes,
      featureSetGet f = false) ∧
    checkAssumes samplePrintTable
      (sampleInfo "foo" "app" ["f1", "snap-env", "f2", "f1"]) =
      some (.errorf
        "snap \"foo\" assumes unsupported features: f1, f2, f1 (try new ubuntu-core)") :=
  ⟨⟨"f1", by decide, by decide⟩,
   (checkAssumes_names_each_occurrence samplePrintTable
      (sampleInfo "foo" "app" ["f1", "snap-env", "f2", "f1"])
      ⟨"f1", by decide, by decide⟩).1⟩

/-- Past the four gates `checkSnap` ends as its type dispatch does, with the
lock taken before and released after. -/
theorem checkSnap_of_gates (env : Env) (st : State) (path : String)
    (si : Option SideInfo) (cur : Option Info) (flags : Flags) (s : Info)
    (hopen : env.openSnapFile path si = .ok s) (hg : GatesPass env st s flags) :
    checkSnap env st path si cur flags =
      ⟨(typeDispatch env st.Lock s cur).1, st.Lock.Unlock,
        [.openSnapFile, .Lock] ++
          ((if env.CheckInterfaces.isSome then [Event.CheckInterfaces] else []) ++
            (typeDispatch env st.Lock s cur).2) ++ [.Unlock]⟩ := by
  obtain ⟨hdev, harch, hass, hhook⟩ := hg
  have hdev2 : (s.NeedsDevMode && !flags.DevModeAllowed) = false := by
    rcases hdev with h | h <;> simp [h]
  unfold checkSnap
  simp only [hopen, hdev2, harch, hass]
  cases hci : env.CheckInterfaces with
  | none => simp [checkSnapLocked, hci]
  | some hook => simp [checkSnapLocked, hci, hhook hook hci]

/-- C6, as stated, fails: an app candidate that needs no devmode and has
supported architectures is rejected when its Assumes list holds an
unsupported flag, and also when a registered interface hook fails. -/
theorem app_rejected_by_assumes_or_hook :
    (¬ ∀ (env : Env) (st : State) (path : String) (si : Option SideInfo)
        (cur : Option Info) (flags : Flags) (s : Info),
        env.CheckInterfaces = none →
        env.openSnapFile path si = .ok s →
        (s.Type_ = "" ∨ s.Type_ = TypeApp ∨ s.Type_ = TypeKernel) →
        (s.NeedsDevMode = false ∨ flags.DevModeAllowed = true) →
        env.IsSupportedArchitecture s.Architectures = true →
        (checkSnap env st path si cur flags).outcome = .ret none) ∧
    (¬ ∀ (env : Env) (st : State) (path : String) (si : Option SideInfo)
        (cur : Option Info) (flags : Flags) (s : Info),
        checkAssumes env.printTable s = none →
        env.openSnapFile path si = .ok s →
        (s.Type_ = "" ∨ s.Type_ = TypeApp ∨ s.Type_ = TypeKernel) →
        (s.NeedsDevMode = false ∨ flags.DevModeAllowed = true) →
        env.IsSupportedArchitecture s.Architectures = true →
        (checkSnap env st path si cur flags).outcome = .ret none) := by
  constructor
  · intro h
    have h1 := h (sampleEnv (sampleInfo "foo" "app" ["f1"]) (.error .ErrNoState)
      (.error .ErrNoState) false) ⟨0⟩ "foo.snap" none none ⟨false⟩
      (sampleInfo "foo" "app" ["f1"]) rfl rfl (by decide) (by decide) rfl
    revert h1
    decide
  · intro h
    have h1 := h
      { sampleEnv (sampleInfo "foo" "app" []) (.error .ErrNoState) (.error .ErrNoState)
          false with CheckInterfaces := some (fun _ _ => some (.other 1)) }
      ⟨0⟩ "foo.snap" none none ⟨false⟩
      (sampleInfo "foo" "app" []) (by decide) rfl (by decide) (by decide) rfl
    revert h1
    decide

/-- C6, amended: a candidate of type app, kernel or unset that opens and
passes the devmode, architecture, assumes and interface-hook gates is
admitted, whatever its architectures and Assumes list are beyond that. -/
theorem checkSnap_admits_app_kernel_unset (env : Env) (st : State) (path : String)
    (si : Option SideInfo) (cur : Option Info) (flags : Flags) (s : Info)
    (hopen : env.openSnapFile path si = .ok s)
    (hty : s.Type_ = "" ∨ s.Type_ = TypeApp ∨ s.Type_ = TypeKernel)
    (hg : GatesPass env st s flags) :
    (checkSnap env st path si cur flags).outcome = .ret none := by
  rw [checkSnap_of_gates env st path si cur flags s hopen hg]
  simp [typeDispatch, hty]

theorem checkSnap_admits_app_kernel_unset_witness :
    (checkSnap (sampleEnv (sampleInfo "foo" "kernel" ["snap-env"]) (.error .ErrNoState)
      (.error .ErrNoState) true) ⟨0⟩ "foo.snap" none none ⟨false⟩).outcome = .ret none :=
  checkSnap_admits_app_kernel_unset
    (sampleEnv (sampleInfo "foo" "kernel" ["snap-env"]) (.error .ErrNoState)
      (.error .ErrNoState) true) ⟨0⟩ "foo.snap" none none ⟨false⟩
    (sampleInfo "foo" "kernel" ["snap-env"]) rfl (by decide)
    ⟨by decide, rfl, by decide, by intro hook h; cases h⟩

/-- C7: for an OS candidate that passes the four gates, with no current
descriptor supplied, `checkSnap` (a) returns nil when the `CoreInfo` lookup
yields `ErrNoState`, (b) returns any other lookup error unchanged, (c) returns
nil when the recorded OS has the candidate's name, and (d) otherwise returns
the error that quotes the candidate's name and then the recorded name. -/
theorem checkSnap_os_without_current (env : Env) (st : State) (path : String)
    (si : Option SideInfo) (flags : Flags) (s : Info)
    (hopen : env.openSnapFile path si = .ok s) (hty : s.Type_ = TypeOS)
    (hg : GatesPass env st s flags) :
    (env.CoreInfo st.Lock = .error .ErrNoState →
      (checkSnap env st path si none flags).outcome = .ret none) ∧
    (∀ e, e ≠ .ErrNoState → env.CoreInfo st.Lock = .error e →
      (checkSnap env st path si none flags).outcome = .ret (some e)) ∧
    (∀ core, env.CoreInfo st.Lock = .ok core → core.Name = s.Name →
      (checkSnap env st path si none flags).outcome = .ret none) ∧
    (∀ core, env.CoreInfo st.Lock = .ok core → core.Name ≠ s.Name →
      (checkSnap env st path si none flags).outcome =
        .ret (some (.errorf ("cannot install core snap " ++ Quote env.printTable s.Name ++
          " when core snap " ++ Quote env.printTable core.Name ++ " is already present")))) := by
  rw [checkSnap_of_gates env st path si none flags s hopen hg]
  have h1 : ¬ (TypeOS = "" ∨ TypeOS = TypeApp ∨ TypeOS = TypeKernel) := by decide
  refine ⟨?_, ?_, ?_, ?_⟩
  · intro hc
    simp [typeDispatch, h1, hty, hc]
  · intro e he hc
    simp [typeDispatch, h1, hty, hc, he]
  · intro core hc hn
    simp [typeDispatch, h1, hty, hc, hn]
  · intro core hc hn
    simp [typeDispatch, h1, hty, hc, hn]

theorem checkSnap_os_without_current_witness :
    (checkSnap (sampleEnv (sampleInfo "B" "os" []) (.ok (sampleInfo "A" "os" []))
      (.error .ErrNoState) false) ⟨0⟩ "B.snap" none none ⟨false⟩).outcome =
      .ret (some (.errorf
        "cannot install core snap \"B\" when core snap \"A\" is already present")) :=
  (checkSnap_os_without_current
    (sampleEnv (sampleInfo "B" "os" []) (.ok (sampleInfo "A" "os" []))
      (.error .ErrNoState) false) ⟨0⟩ "B.snap" none ⟨false⟩ (sampleInfo "B" "os" [])
    rfl rfl ⟨by decide, rfl, by decide, by intro hook h; cases h⟩).2.2.2
    (sampleInfo "A" "os" []) rfl (by decide)

/-- C8: for an OS candidate that passes the four gates, when a current
descriptor is supplied `checkSnap` returns nil and never calls `CoreInfo`; the
whole result is the same for every `CoreInfo` collaborator, and the name of
the supplied descriptor plays no part. -/
theorem checkSnap_os_upgrade_bypass (env : Env) (st : State) (path : String)
    (si : Option SideInfo) (flags : Flags) (s cur : Info)
    (hopen : env.openSnapFile path si = .ok s) (hty : s.Type_ = TypeOS)
    (hg : GatesPass env st s flags) :
    (checkSnap env st path si (some cur) flags).outcome = .ret none ∧
    Event.CoreInfo ∉ (checkSnap env st path si (some cur) flags).trace ∧
    (∀ lookup : State → Except Error Info,
      checkSnap { env with CoreInfo := lookup } st path si (some cur) flags =
        checkSnap env st path si (some cur) flags) ∧
    (∀ cur2 : Info, checkSnap env st path si (some cur2) flags =
        checkSnap env st path si (some cur) flags) := by
  have h1 : ¬ (TypeOS = "" ∨ TypeOS = TypeApp ∨ TypeOS = TypeKernel) := by decide
  have hd : ∀ (env2 : Env) (c : Info),
      typeDispatch env2 st.Lock s (some c) = (.ret none, []) := by
    intro env2 c
    simp [typeDispatch, h1, hty]
  refine ⟨?_, ?_, ?_, ?_⟩
  · rw [checkSnap_of_gates env st path si (some cur) flags s hopen hg, hd]
  · rw [checkSnap_of_gates env st path si (some cur) flags s hopen hg, hd]
    cases env.CheckInterfaces <;> simp
  · intro lookup
    rw [checkSnap_of_gates env st path si (some cur) flags s hopen hg,
      checkSnap_of_gates { env with CoreInfo := lookup } st path si (some cur) flags s
        hopen hg, hd, hd]
  · intro cur2
    rw [checkSnap_of_gates env st path si (some cur) flags s hopen hg,
      checkSnap_of_gates env st path si (some cur2) flags s hopen hg, hd, hd]

theorem checkSnap_os_upgrade_bypass_witness :
    (checkSnap (sampleEnv (sampleInfo "B" "os" []) (.ok (sampleInfo "A" "os" []))
      (.error .ErrNoState) false) ⟨0⟩ "B.snap" none (some (sampleInfo "C" "os" []))
      ⟨false⟩).outcome = .ret none :=
  (checkSnap_os_upgrade_bypass
    (sampleEnv (sampleInfo "B" "os" []) (.ok (sampleInfo "A" "os" []))
      (.error .ErrNoState) false) ⟨0⟩ "B.snap" none ⟨false⟩ (sampleInfo "B" "os" [])
    (sampleInfo "C" "os" [])
    rfl rfl ⟨by decide, rfl, by decide, by intro hook h; cases h⟩).1

theorem typeDispatch_gadget (env : Env) (st : State) (s : Info) (cur : Option Info)
    (hty : s.Type_ = TypeGadget) :
    typeDispatch env st s cur =
      if env.OnClassic then
        (.ret (some (.errorf "cannot install a gadget snap on classic")), [])
      else
        match env.GadgetInfo st with
        | .error err =>
          if err = .ErrNoState then (.ret none, [.GadgetInfo])
          else (.ret (some (.errorf "cannot find original gadget snap")), [.GadgetInfo])
        | .ok currentGadget =>
          if currentGadget.Name ≠ s.Name then
            (.ret (some (.errorf "cannot replace gadget snap with a different one")),
              [.GadgetInfo])
          else (.ret none, [.GadgetInfo]) := by
  have h1 : ¬ (TypeGadget = "" ∨ TypeGadget = TypeApp ∨ TypeGadget = TypeKernel) := by
    decide
  have h2 : ¬ (TypeGadget = TypeOS) := by decide
  simp only [typeDispatch, hty, h1, h2, if_false, if_true]

/-- C9: for a gadget candidate that opens, (a) on a classic system `checkSnap`
returns a non-nil error whatever the recorded gadget and the current
descriptor are, and past the four gates that error is "cannot install a gadget
snap on classic" and `GadgetInfo` is not called; (b) on a non-classic system,
past the four gates, it returns nil when `GadgetInfo` yields `ErrNoState`, nil
when the recorded gadget has the candidate's name, and "cannot replace gadget
snap with a different one" when the recorded gadget has another name. -/
theorem checkSnap_gadget (env : Env) (st : State) (path : String)
    (si : Option SideInfo) (cur : Option Info) (flags : Flags) (s : Info)
    (hopen : env.openSnapFile path si = .ok s) (hty : s.Type_ = TypeGadget) :
    (env.OnClassic = true →
      (∃ e, (checkSnap env st path si cur flags).outcome = .ret (some e)) ∧
      (GatesPass env st s flags →
        (checkSnap env st path si cur flags).outcome =
          .ret (some (.errorf "cannot install a gadget snap on classic")) ∧
        Event.GadgetInfo ∉ (checkSnap env st path si cur flags).trace)) ∧
    (env.OnClassic = false → GatesPass env st s flags →
      (env.GadgetInfo st.Lock = .error .ErrNoState →
        (checkSnap env st path si cur flags).outcome = .ret none) ∧
      (∀ g, env.GadgetInfo st.Lock = .ok g → g.Name = s.Name →
        (checkSnap env st path si cur flags).outcome = .ret none) ∧
      (∀ g, env.GadgetInfo st.Lock = .ok g → g.Name ≠ s.Name →
        (checkSnap env st path si cur flags).outcome =
          .ret (some (.errorf "cannot replace gadget snap with a different one")))) := by
  refine ⟨fun hcl => ⟨?_, fun hg => ?_⟩, fun hcl hg => ⟨?_, ?_, ?_⟩⟩
  · unfold checkSnap
    simp only [hopen]
    split
    · exact ⟨_, rfl⟩
    · split
      · exact ⟨_, rfl⟩
      · cases hass : checkAssumes env.printTable s with
        | some err => exact ⟨_, rfl⟩
        | none =>
          cases hci : env.CheckInterfaces with
          | none =>
            simp only [checkSnapLocked, hci,
              typeDispatch_gadget env st.Lock s cur hty, hcl, if_true]
            exact ⟨_, rfl⟩
          | some hook =>
            cases hh : hook st.Lock s with
            | some err =>
              simp only [checkSnapLocked, hci, hh]
              exact ⟨_, rfl⟩
            | none =>
              simp only [checkSnapLocked, hci, hh,
                typeDispatch_gadget env st.Lock s cur hty, hcl, if_true]
              exact ⟨_, rfl⟩
  · rw [checkSnap_of_gates env st path si cur flags s hopen hg,
      typeDispatch_gadget env st.Lock s cur hty]
    cases env.CheckInterfaces <;> simp [hcl]
  · intro hc
    rw [checkSnap_of_gates env st path si cur flags s hopen hg,
      typeDispatch_gadget env st.Lock s cur hty]
    simp [hcl, hc]
  · intro g hc hn
    rw [checkSnap_of_gates env st path si cur flags s hopen hg,
      typeDispatch_gadget env st.Lock s cur hty]
    simp [hcl, hc, hn]
  · intro g hc hn
    rw [checkSnap_of_gates env st path si cur flags s hopen hg,
      typeDispatch_gadget env st.Lock s cur hty]
    simp [hcl, hc, hn]

theorem checkSnap_gadget_witness :
    (checkSnap (sampleEnv (sampleInfo "Y" "gadget" []) (.error .ErrNoState)
      (.ok (sampleInfo "X" "gadget" [])) true) ⟨0⟩ "Y.snap" none none ⟨false⟩).outcome =
      .ret (some (.errorf "cannot install a gadget snap on classic")) ∧
    (checkSnap (sampleEnv (sampleInfo "Y" "gadget" []) (.error .ErrNoState)
      (.ok (sampleInfo "X" "gadget" [])) false) ⟨0⟩ "Y.snap" none none ⟨false⟩).outcome =
      .ret (some (.errorf "cannot replace gadget snap with a different one")) :=
  ⟨((checkSnap_gadget
      (sampleEnv (sampleInfo "Y" "gadget" []) (.error .ErrNoState)
        (.ok (sampleInfo "X" "gadget" [])) true) ⟨0⟩ "Y.snap" none none ⟨false⟩
      (sampleInfo "Y" "gadget" []) rfl rfl).1 rfl).2
      ⟨by decide, rfl, by decide, by intro hook h; cases h⟩ |>.1,
   ((checkSnap_gadget
      (sampleEnv (sampleInfo "Y" "gadget" []) (.error .ErrNoState)
        (.ok (sampleInfo "X" "gadget" [])) false) ⟨0⟩ "Y.snap" none none ⟨false⟩
      (sampleInfo "Y" "gadget" []) rfl rfl).2 rfl
      ⟨by decide, rfl, by decide, by intro hook h; cases h⟩).2.2
      (sampleInfo "X" "gadget" []) rfl (by decide)⟩

/-- C10: for a gadget candidate on a non-classic system past the four gates,
every `GadgetInfo` lookup error other than `ErrNoState` makes `checkSnap`
return the fixed error "cannot find original gadget snap"; two runs whose
collaborators differ only in that lookup error return the same error. -/
theorem checkSnap_gadget_lookup_error (env : Env) (st : State) (path : String)
    (si : Option SideInfo) (cur : Option Info) (flags : Flags) (s : Info)
    (hopen : env.openSnapFile path si = .ok s) (hty : s.Type_ = TypeGadget)
    (hcl : env.OnClassic = false) (hg : GatesPass env st s flags) :
    (∀ e, e ≠ .ErrNoState → env.GadgetInfo st.Lock = .error e →
      (checkSnap env st path si cur flags).outcome =
        .ret (some (.errorf "cannot find original gadget snap"))) ∧
    (∀ e1 e2, e1 ≠ .ErrNoState → e2 ≠ .ErrNoState →
      (checkSnap { env with GadgetInfo := fun _ => .error e1 } st path si cur flags).outcome =
      (checkSnap { env with GadgetInfo := fun _ => .error e2 } st path si cur
        flags).outcome) := by
  have key : ∀ (env2 : Env), env2.openSnapFile path si = .ok s →
      env2.OnClassic = false → GatesPass env2 st s flags →
      ∀ e, e ≠ .ErrNoState → env2.GadgetInfo st.Lock = .error e →
      (checkSnap env2 st path si cur flags).outcome =
        .ret (some (.errorf "cannot find original gadget snap")) := by
    intro env2 ho hc2 hg2 e he hc
    rw [checkSnap_of_gates env2 st path si cur flags s ho hg2,
      typeDispatch_gadget env2 st.Lock s cur hty]
    simp [hc2, hc, he]
  refine ⟨key env hopen hcl hg, ?_⟩
  intro e1 e2 h1 h2
  rw [key { env with GadgetInfo := fun _ => .error e1 } hopen hcl hg e1 h1 rfl,
    key { env with GadgetInfo := fun _ => .error e2 } hopen hcl hg e2 h2 rfl]

theorem checkSnap_gadget_lookup_error_witness :
    (checkSnap (sampleEnv (sampleInfo "Y" "gadget" []) (.error .ErrNoState)
      (.error (.other 7)) false) ⟨0⟩ "Y.snap" none none ⟨false⟩).outcome =
      .ret (some (.errorf "cannot find original gadget snap")) :=
  (checkSnap_gadget_lookup_error
    (sampleEnv (sampleInfo "Y" "gadget" []) (.error .ErrNoState)
      (.error (.other 7)) false) ⟨0⟩ "Y.snap" none none ⟨false⟩
    (sampleInfo "Y" "gadget" []) rfl rfl rfl
    ⟨by decide, rfl, by decide, by intro hook h; cases h⟩).1
    (.other 7) (by decide) rfl

end Snapstate

namespace Snapstate

open GoStrings

/-- C11: `checkSnap` applies open, devmode, architecture, assumes, hook and
type dispatch in this order and returns at the first gate that fails: an open
error is returned unchanged; the devmode error wins over bad architectures and
assumes; the architecture error wins over bad assumes; an assumes error is
returned before the lock is taken and the hook called; a hook error is
returned unchanged with no lookup made; and a nil hook is skipped. -/
theorem checkSnap_gate_order (env : Env) (st : State) (path : String)
    (si : Option SideInfo) (cur : Option Info) (flags : Flags) :
    (∀ e, env.openSnapFile path si = .error e →
      checkSnap env st path si cur flags = ⟨.ret (some e), st, [.openSnapFile]⟩) ∧
    (∀ s, env.openSnapFile path si = .ok s →
      s.NeedsDevMode = true → flags.DevModeAllowed = false →
      checkSnap env st path si cur flags =
        ⟨.ret (some (.errorf ("snap " ++ Quote env.printTable s.Name ++
          " requires devmode or confinement override"))), st, [.openSnapFile]⟩) ∧
    (∀ s, env.openSnapFile path si = .ok s →
      (s.NeedsDevMode = false ∨ flags.DevModeAllowed = true) →
      env.IsSupportedArchitecture s.Architectures = false →
      checkSnap env st path si cur flags =
        ⟨.ret (some (.errorf ("snap " ++ Quote env.printTable s.Name ++ " supported architectures (" ++
          Join s.Architectures ", " ++ ") are incompatible with this system (" ++
          env.UbuntuArchitecture ++ ")"))), st, [.openSnapFile]⟩) ∧
    (∀ s err, env.openSnapFile path si = .ok s →
      (s.NeedsDevMode = false ∨ flags.DevModeAllowed = true) →
      env.IsSupportedArchitecture s.Architectures = true →
      checkAssumes env.printTable s = some err →
      checkSnap env st path si cur flags = ⟨.ret (some err), st, [.openSnapFile]⟩) ∧
    (∀ s hook err, env.openSnapFile path si = .ok s →
      (s.NeedsDevMode = false ∨ flags.DevModeAllowed = true) →
      env.IsSupportedArchitecture s.Architectures = true →
      checkAssumes env.printTable s = none →
      env.CheckInterfaces = some hook → hook st.Lock s = some err →
      checkSnap env st path si cur flags =
        ⟨.ret (some err), st.Lock.Unlock,
          [.openSnapFile, .Lock, .CheckInterfaces, .Unlock]⟩) ∧
    (∀ s, env.openSnapFile path si = .ok s →
      (s.NeedsDevMode = false ∨ flags.DevModeAllowed = true) →
      env.IsSupportedArchitecture s.Architectures = true →
      checkAssumes env.printTable s = none →
      env.CheckInterfaces = none →
      checkSnap env st path si cur flags =
        ⟨(typeDispatch env st.Lock s cur).1, st.Lock.Unlock,
          [.openSnapFile, .Lock] ++ (typeDispatch env st.Lock s cur).2 ++ [.Unlock]⟩) := by
  have hdev : ∀ s : Info, (s.NeedsDevMode = false ∨ flags.DevModeAllowed = true) →
      (s.NeedsDevMode && !flags.DevModeAllowed) = false := by
    intro s h
    rcases h with h | h <;> simp [h]
  refine ⟨?_, ?_, ?_, ?_, ?_, ?_⟩
  · intro e ho
    simp [checkSnap, ho]
  · intro s ho h1 h2
    simp [checkSnap, ho, h1, h2]
  · intro s ho h1 h2
    simp [checkSnap, ho, hdev s h1, h2]
  · intro s err ho h1 h2 h3
    simp [checkSnap, ho, hdev s h1, h2, h3]
  · intro s hook err ho h1 h2 h3 h4 h5
    simp [checkSnap, checkSnapLocked, ho, hdev s h1, h2, h3, h4, h5]
  · intro s ho h1 h2 h3 h4
    simp [checkSnap, checkSnapLocked, ho, hdev s h1, h2, h3, h4]

/-- The worked example of C11: a candidate that needs devmode, has an
unsupported architecture and an unsupported assumes flag gets the devmode
error. -/
theorem checkSnap_gate_order_witness :
    (checkSnap
      { sampleEnv ⟨"foo", ["armhf"], "app", ["f1"], true⟩ (.error .ErrNoState)
          (.error .ErrNoState) false with IsSupportedArchitecture := fun _ => false }
      ⟨0⟩ "foo.snap" none none ⟨false⟩).outcome =
      .ret (some (.errorf "snap \"foo\" requires devmode or confinement override")) :=
  congrArg Result.outcome
    ((checkSnap_gate_order
      { sampleEnv ⟨"foo", ["armhf"], "app", ["f1"], true⟩ (.error .ErrNoState)
          (.error .ErrNoState) false with IsSupportedArchitecture := fun _ => false }
      ⟨0⟩ "foo.snap" none none ⟨false⟩).2.1 ⟨"foo", ["armhf"], "app", ["f1"], true⟩
      rfl rfl rfl)

end Snapstate

namespace Partition

open GoStrings

/-- C12: after `ForceBootloader(b)` with a non-nil `b`, `FindBootloader`
returns `(b, nil)` on every system and probes nothing; after
`ForceBootloader(nil)` it behaves as with no override and probes again; with
no override and neither backend present it returns `ErrBootloader`. -/
theorem findBootloader_override (old : Option Backend) (b : Backend) (sys : System) :
    FindBootloader (ForceBootloader old (some b)) sys = (.ok b, []) ∧
    FindBootloader (ForceBootloader (ForceBootloader old (some b)) none) sys =
      FindBootloader none sys ∧
    Probe.newUboot ∈ (FindBootloader (ForceBootloader old none) sys).2 ∧
    (sys.ubootPresent = false → sys.grubPresent = false →
      (FindBootloader none sys).1 = .error .ErrBootloader) := by
  refine ⟨rfl, rfl, ?_, ?_⟩
  · cases hu : sys.ubootPresent <;> cases hg : sys.grubPresent <;>
      simp [FindBootloader, ForceBootloader, newUboot, newGrub, hu, hg]
  · intro hu hg
    simp [FindBootloader, newUboot, newGrub, hu, hg]

/-- The worked example of C12: with a test double forced and both backends
present the test double is found; with neither present and no override the
result is `ErrBootloader`. -/
theorem findBootloader_override_witness :
    FindBootloader (ForceBootloader none (some (.custom 1))) ⟨true, true⟩ =
      (.ok (.custom 1), []) ∧
    (FindBootloader none ⟨false, false⟩).1 = .error .ErrBootloader :=
  ⟨(findBootloader_override none (.custom 1) ⟨true, true⟩).1,
   (findBootloader_override none (.custom 1) ⟨false, false⟩).2.2.2 rfl rfl⟩

/-- C13: with no override, `FindBootloader` returns the uboot backend whenever
it is present, also when grub is present too; it returns the grub backend
exactly when uboot is absent and grub is present; and it returns an error
exactly when both are absent. -/
theorem findBootloader_priority (sys : System) :
    (sys.ubootPresent = true → (FindBootloader none sys).1 = .ok .uboot) ∧
    ((FindBootloader none sys).1 = .ok .grub ↔
      sys.ubootPresent = false ∧ sys.grubPresent = true) ∧
    ((∃ e, (FindBootloader none sys).1 = .error e) ↔
      sys.ubootPresent = false ∧ sys.grubPresent = false) := by
  cases hu : sys.ubootPresent <;> cases hg : sys.grubPresent <;>
    simp [FindBootloader, newUboot, newGrub, hu, hg]

/-- The worked example of C13: both backends present, uboot is found. -/
theorem findBootloader_priority_witness :
    (FindBootloader none ⟨true, true⟩).1 = .ok .uboot :=
  (findBootloader_priority ⟨true, true⟩).1 rfl

/-- C14: when the gadget directory holds a file matching the grub backend's
config base name (whether or not it holds one matching the uboot backend's,
which is tried second), directory creation succeeds and the copy succeeds,
`InstallBootConfig` returns nil and makes exactly one copy, of that file to
the grub backend's config path with the overwrite flag; when no backend's
config file is found it makes no copy and returns "cannot find boot config in"
followed by the gadget directory as `%q` renders it, which for a directory
name of printable ASCII characters other than the double quote and the
backslash is the name itself between double quotes. -/
theorem installBootConfig_grub (env : InstallEnv) (gadgetDir : String) :
    (∀ fn, env.find gadgetDir (env.Base (env.ConfigFile .grub)) = .ok fn →
      env.MkdirAll (env.Dir (env.ConfigFile .grub)) 0o755 = none →
      env.CopyFile fn (env.ConfigFile .grub) .CopyFlagOverwrite = none →
      (InstallBootConfig env gadgetDir).1 = none ∧
      (InstallBootConfig env gadgetDir).2.filter FsCall.isCopy =
        [.CopyFile fn (env.ConfigFile .grub) .CopyFlagOverwrite]) ∧
    ((∀ b, b = Backend.grub ∨ b = Backend.uboot →
        ∃ e, env.find gadgetDir (env.Base (env.ConfigFile b)) = .error e) →
      (InstallBootConfig env gadgetDir).1 =
        some (.errorf ("cannot find boot config in " ++ Quote env.printTable gadgetDir)) ∧
      (InstallBootConfig env gadgetDir).2.filter FsCall.isCopy = [] ∧
      (Snapstate.PlainName gadgetDir →
        (InstallBootConfig env gadgetDir).1 =
          some (.errorf ("cannot find boot config in \"" ++ gadgetDir ++ "\"")))) := by
  constructor
  · intro fn hf hm hc
    simp [InstallBootConfig, installLoop, hf, hm, hc, FsCall.isCopy]
  · intro h
    obtain ⟨e1, h1⟩ := h .grub (Or.inl rfl)
    obtain ⟨e2, h2⟩ := h .uboot (Or.inr rfl)
    have hres : (InstallBootConfig env gadgetDir).1 =
        some (.errorf ("cannot find boot config in " ++ Quote env.printTable gadgetDir)) := by
      simp [InstallBootConfig, installLoop, h1, h2]
    refine ⟨hres, ?_, ?_⟩
    · simp [InstallBootConfig, installLoop, h1, h2, FsCall.isCopy]
    · intro hp
      have hq : "cannot find boot config in " ++ "\"" = "cannot find boot config in \"" := by
        decide
      rw [hres, quote_plain env.printTable gadgetDir hp, ← String.append_assoc,
        ← String.append_assoc, hq]

/-- The worked example of C14: `/gadget` holds `grub.cfg` and no `uEnv.txt`, so
that file is copied; `/other` holds neither, so the error names `/other`. -/
theorem installBootConfig_grub_witness :
    ((InstallBootConfig grubGadgetEnv "/gadget").1 = none ∧
    (InstallBootConfig grubGadgetEnv "/gadget").2.filter FsCall.isCopy =
      [.CopyFile "/gadget/grub.cfg" "/boot/grub/grub.cfg" .CopyFlagOverwrite]) ∧
    (InstallBootConfig grubGadgetEnv "/other").1 =
      some (.errorf "cannot find boot config in \"/other\"") ∧
    (InstallBootConfig grubGadgetEnv "/other").2.filter FsCall.isCopy = [] ∧
    (InstallBootConfig grubGadgetEnv "/other").2 =
      [.find "/other" "grub.cfg", .find "/other" "uEnv.txt"] :=
  ⟨(installBootConfig_grub grubGadgetEnv "/gadget").1 "/gadget/grub.cfg" rfl rfl rfl,
   ((installBootConfig_grub grubGadgetEnv "/other").2
      (fun b hb => ⟨.other 2, by rcases hb with h | h <;> subst h <;> rfl⟩)).1,
   ((installBootConfig_grub grubGadgetEnv "/other").2
      (fun b hb => ⟨.other 2, by rcases hb with h | h <;> subst h <;> rfl⟩)).2.1,
   by decide⟩

end Partition

namespace Snapstate

theorem typeDispatch_trace (env : Env) (st : State) (s : Info) (cur : Option Info) :
    (typeDispatch env st s cur).2 = [] ∨ (typeDispatch env st s cur).2 = [.CoreInfo] ∨
    (typeDispatch env st s cur).2 = [.GadgetInfo] := by
  unfold typeDispatch
  repeat' split
  all_goals simp

theorem typeDispatch_known (env : Env) (st : State) (s : Info) (cur : Option Info)
    (hty : s.Type_ = "" ∨ s.Type_ = TypeApp ∨ s.Type_ = TypeKernel ∨ s.Type_ = TypeOS ∨
      s.Type_ = TypeGadget) :
    ∃ r, (typeDispatch env st s cur).1 = .ret r := by
  unfold typeDispatch
  repeat' split
  all_goals first
    | exact ⟨_, rfl⟩
    | (exfalso; rcases hty with h | h | h | h | h <;> simp_all)

theorem typeDispatch_unknown (env : Env) (st : State) (s : Info) (cur : Option Info)
    (hty : ¬ (s.Type_ = "" ∨ s.Type_ = TypeApp ∨ s.Type_ = TypeKernel ∨ s.Type_ = TypeOS ∨
      s.Type_ = TypeGadget)) :
    typeDispatch env st s cur = (.panicked "unknown type", []) := by
  have h1 : ¬ (s.Type_ = "" ∨ s.Type_ = TypeApp ∨ s.Type_ = TypeKernel) := by
    intro h; apply hty
    rcases h with h | h | h
    · exact Or.inl h
    · exact Or.inr (Or.inl h)
    · exact Or.inr (Or.inr (Or.inl h))
  have h2 : ¬ s.Type_ = TypeOS := fun h => hty (Or.inr (Or.inr (Or.inr (Or.inl h))))
  have h3 : ¬ s.Type_ = TypeGadget := fun h => hty (Or.inr (Or.inr (Or.inr (Or.inr h))))
  simp only [typeDispatch, h1, h2, h3, if_false]

/-- The shapes the call record of `checkSnap` can take, with the state store
at the end. -/
theorem checkSnap_trace_cases (env : Env) (st : State) (path : String)
    (si : Option SideInfo) (cur : Option Info) (flags : Flags) :
    ((checkSnap env st path si cur flags).trace = [.openSnapFile] ∧
      (checkSnap env st path si cur flags).st = st) ∨
    (∃ mid, mid ∈ [[], [Event.CheckInterfaces], [Event.CoreInfo], [Event.GadgetInfo],
        [Event.CheckInterfaces, Event.CoreInfo], [Event.CheckInterfaces, Event.GadgetInfo]] ∧
      (checkSnap env st path si cur flags).trace =
        Event.openSnapFile :: Event.Lock :: (mid ++ [Event.Unlock]) ∧
      (checkSnap env st path si cur flags).st = st.Lock.Unlock ∧
      ∃ s, env.openSnapFile path si = .ok s ∧
        (s.NeedsDevMode && !flags.DevModeAllowed) = false ∧
        env.IsSupportedArchitecture s.Architectures = true ∧ checkAssumes env.printTable s = none) := by
  cases ho : env.openSnapFile path si with
  | error e => left; simp [checkSnap, ho]
  | ok s =>
    cases hd : (s.NeedsDevMode && !flags.DevModeAllowed) with
    | true => left; simp [checkSnap, ho, hd]
    | false =>
      cases ha : env.IsSupportedArchitecture s.Architectures with
      | false => left; simp [checkSnap, ho, hd, ha]
      | true =>
        cases hc : checkAssumes env.printTable s with
        | some err => left; simp [checkSnap, ho, hd, ha, hc]
        | none =>
          right
          have ht := typeDispatch_trace env st.Lock s cur
          cases hci : env.CheckInterfaces with
          | none =>
            refine ⟨(typeDispatch env st.Lock s cur).2, ?_, ?_, ?_, s, rfl, hd, ha, hc⟩
            · rcases ht with h | h | h <;> simp [h]
            · simp [checkSnap, checkSnapLocked, ho, hd, ha, hc, hci]
            · simp [checkSnap, ho, hd, ha, hc]
          | some hook =>
            cases hh : hook st.Lock s with
            | some err =>
              refine ⟨[.CheckInterfaces], ?_, ?_, ?_, s, rfl, hd, ha, hc⟩
              · simp
              · simp [checkSnap, checkSnapLocked, ho, hd, ha, hc, hci, hh]
              · simp [checkSnap, ho, hd, ha, hc]
            | none =>
              refine ⟨.CheckInterfaces :: (typeDispatch env st.Lock s cur).2, ?_, ?_, ?_,
                s, rfl, hd, ha, hc⟩
              · rcases ht with h | h | h <;> simp [h]
              · simp [checkSnap, checkSnapLocked, ho, hd, ha, hc, hci, hh]
              · simp [checkSnap, ho, hd, ha, hc]

/-- C15: for a candidate of declared type app, kernel, os, gadget or unset
`checkSnap` returns a value (nil or an error) and does not panic; for a
candidate of any other declared type that passes the four gates it panics
with "unknown type". -/
theorem checkSnap_panics_only_on_unknown_type (env : Env) (st : State) (path : String)
    (si : Option SideInfo) (cur : Option Info) (flags : Flags) (s : Info)
    (hopen : env.openSnapFile path si = .ok s) :
    ((s.Type_ = "" ∨ s.Type_ = TypeApp ∨ s.Type_ = TypeKernel ∨ s.Type_ = TypeOS ∨
        s.Type_ = TypeGadget) →
      ∃ r, (checkSnap env st path si cur flags).outcome = .ret r) ∧
    (¬ (s.Type_ = "" ∨ s.Type_ = TypeApp ∨ s.Type_ = TypeKernel ∨ s.Type_ = TypeOS ∨
        s.Type_ = TypeGadget) →
      GatesPass env st s flags →
      (checkSnap env st path si cur flags).outcome = .panicked "unknown type") := by
  constructor
  · intro hty
    obtain ⟨r, hr⟩ := typeDispatch_known env st.Lock s cur hty
    cases hd : (s.NeedsDevMode && !flags.DevModeAllowed) with
    | true => simp [checkSnap, hopen, hd]
    | false =>
      cases ha : env.IsSupportedArchitecture s.Architectures with
      | false => simp [checkSnap, hopen, hd, ha]
      | true =>
        cases hc : checkAssumes env.printTable s with
        | some err => simp [checkSnap, hopen, hd, ha, hc]
        | none =>
          cases hci : env.CheckInterfaces with
          | none => exact ⟨r, by simp [checkSnap, checkSnapLocked, hopen, hd, ha, hc, hci, hr]⟩
          | some hook =>
            cases hh : hook st.Lock s with
            | some err =>
              simp [checkSnap, checkSnapLocked, hopen, hd, ha, hc, hci, hh]
            | none =>
              exact ⟨r, by simp [checkSnap, checkSnapLocked, hopen, hd, ha, hc, hci, hh, hr]⟩
  · intro hty hg
    rw [checkSnap_of_gates env st path si cur flags s hopen hg,
      typeDispatch_unknown env st.Lock s cur hty]

/-- The worked example of C15: a candidate of declared type "base" that passes
the gates makes `checkSnap` panic. -/
theorem checkSnap_panics_only_on_unknown_type_witness :
    (checkSnap (sampleEnv (sampleInfo "foo" "base" []) (.error .ErrNoState)
      (.error .ErrNoState) false) ⟨0⟩ "foo.snap" none none ⟨false⟩).outcome =
      .panicked "unknown type" :=
  (checkSnap_panics_only_on_unknown_type
    (sampleEnv (sampleInfo "foo" "base" []) (.error .ErrNoState) (.error .ErrNoState) false)
    ⟨0⟩ "foo.snap" none none ⟨false⟩ (sampleInfo "foo" "base" []) rfl).2 (by decide)
    ⟨by decide, rfl, by decide, by intro hook h; cases h⟩

/-- C16: on every way out of `checkSnap`, the panic included, the lock is
released as often as it was acquired and the state store ends as it started;
the hook and the `CoreInfo` and `GadgetInfo` lookups are called only while the
lock is held; and a run that fails at the open, devmode, architecture or
assumes gate never acquires the lock. -/
theorem checkSnap_lock_discipline (env : Env) (st : State) (path : String)
    (si : Option SideInfo) (cur : Option Info) (flags : Flags) :
    (checkSnap env st path si cur flags).trace.count .Lock =
      (checkSnap env st path si cur flags).trace.count .Unlock ∧
    (checkSnap env st path si cur flags).st = st ∧
    lockDiscipline 0 (checkSnap env st path si cur flags).trace = true ∧
    (FailsBeforeLock env path si flags →
      Event.Lock ∉ (checkSnap env st path si cur flags).trace) := by
  rcases checkSnap_trace_cases env st path si cur flags with
    ⟨ht, hs⟩ | ⟨mid, hmid, ht, hs, s, ho, hd, ha, hc⟩
  · rw [ht, hs]
    refine ⟨by decide, rfl, by decide, fun _ => by decide⟩
  · rw [ht, hs]
    have hst : st.Lock.Unlock = st := by
      cases st; simp [State.Lock, State.Unlock]
    refine ⟨?_, hst, ?_, ?_⟩
    · simp only [List.mem_cons, List.mem_singleton, List.not_mem_nil, or_false] at hmid
      rcases hmid with h | h | h | h | h | h <;> subst h <;> decide
    · simp only [List.mem_cons, List.mem_singleton, List.not_mem_nil, or_false] at hmid
      rcases hmid with h | h | h | h | h | h <;> subst h <;> decide
    · intro hf
      exfalso
      rcases hf s ho with ⟨h1, h2⟩ | h | h
      · simp [h1, h2] at hd
      · simp [h] at ha
      · exact h hc

/-- The worked example of C16: a gadget candidate with a failing hook leaves
the lock released, and a candidate with an unsupported assumes flag never
takes it. -/
theorem checkSnap_lock_discipline_witness :
    (checkSnap
      { sampleEnv (sampleInfo "Y" "gadget" []) (.error .ErrNoState) (.error .ErrNoState)
          false with CheckInterfaces := some (fun _ _ => some (.other 1)) }
      ⟨0⟩ "Y.snap" none none ⟨false⟩).st.held = 0 ∧
    Event.Lock ∉ (checkSnap (sampleEnv (sampleInfo "foo" "app" ["f1"]) (.error .ErrNoState)
      (.error .ErrNoState) false) ⟨0⟩ "foo.snap" none none ⟨false⟩).trace :=
  ⟨congrArg State.held (checkSnap_lock_discipline
      { sampleEnv (sampleInfo "Y" "gadget" []) (.error .ErrNoState) (.error .ErrNoState)
          false with CheckInterfaces := some (fun _ _ => some (.other 1)) }
      ⟨0⟩ "Y.snap" none none ⟨false⟩).2.1,
   (checkSnap_lock_discipline (sampleEnv (sampleInfo "foo" "app" ["f1"])
      (.error .ErrNoState) (.error .ErrNoState) false) ⟨0⟩ "foo.snap" none none ⟨false⟩).2.2.2
      (by
        intro s hs
        cases hs
        exact Or.inr (Or.inr (by decide)))⟩

end Snapstate

namespace Partition

theorem markBody_calls {σ ε : Type} (bl : Bootloader σ ε) (k : String) (s : σ)
    (hk : k = "snappy_os" ∨ k = "snappy_kernel") :
    ∀ e ∈ (markBody bl k s).2.2, e.1.allowed = true := by
  have hset : ∀ v, (Call.set (GoStrings.Replace k "snappy_" "snappy_good_") v).allowed
      = true := by
    intro v
    rcases hk with h | h <;> subst h
    · rw [replace_os]; simp [Call.allowed]
    · rw [replace_kernel]; simp [Call.allowed]
  have hget : (Call.get k).allowed = true := by
    rcases hk with h | h <;> subst h <;> decide
  have hmode : (Call.set "snappy_mode" modeSuccess).allowed = true := by decide
  have htrial : (Call.set "snappy_trial_boot" "0").allowed = true := by decide
  unfold markBody
  rcases h1 : bl.GetBootVar s k with ⟨_ | v, s1⟩
  · simp [hget]
  · rcases h2 : bl.SetBootVar s1 (GoStrings.Replace k "snappy_" "snappy_good_") v
      with ⟨_ | e2, s2⟩
    · rcases h3 : bl.SetBootVar s2 "snappy_mode" modeSuccess with ⟨_ | e3, s3⟩
      · rcases h4 : bl.SetBootVar s3 "snappy_trial_boot" "0" with ⟨_ | e4, s4⟩
        · simp [h2, h3, h4, hget, hset, hmode, htrial]
        · simp [h2, h3, h4, hget, hset, hmode, htrial]
      · simp [h2, h3, hget, hset, hmode]
    · simp [h2, hget, hset]

theorem markLoop_calls {σ ε : Type} (bl : Bootloader σ ε) :
    ∀ (ks : List String) (s : σ) (t : List (Call × σ)),
      (∀ k ∈ ks, k = "snappy_os" ∨ k = "snappy_kernel") →
      (∀ e ∈ t, e.1.allowed = true) →
      ∀ e ∈ (markLoop bl ks s t).trace, e.1.allowed = true := by
  intro ks
  induction ks with
  | nil => intro s t _ ht; simpa [markLoop] using ht
  | cons k ks ih =>
    intro s t hks ht
    have hb := markBody_calls bl k s (hks k (List.mem_cons_self _ _))
    have hks2 : ∀ k2 ∈ ks, k2 = "snappy_os" ∨ k2 = "snappy_kernel" :=
      fun k2 h2 => hks k2 (List.mem_cons_of_mem _ h2)
    have happ : ∀ e ∈ t ++ (markBody bl k s).2.2, e.1.allowed = true := by
      intro e he
      rcases List.mem_append.mp he with h | h
      · exact ht e h
      · exact hb e h
    unfold markLoop
    rcases hm : markBody bl k s with ⟨_ | err, s1, t1⟩
    · rw [hm] at happ
      exact ih s1 (t ++ t1) hks2 happ
    · rw [hm] at happ
      exact happ

/-- Every call the success marker issues is one of the allowed calls. -/
theorem markBootSuccessful_calls {σ ε : Type} (bl : Bootloader σ ε) (s : σ) :
    ∀ e ∈ (MarkBootSuccessful bl s).trace, e.1.allowed = true :=
  markLoop_calls bl _ s [] (by simp) (by simp)

/-- C17, as stated, fails: on `foreignStore`, whose mode is "foreign", the
marker changes `snappy_mode` although the previous value was not "try". -/
theorem mode_overwritten_when_not_try :
    ¬ ∀ m : Store,
      (MarkBootSuccessful (mapBootloader String) m).st.read "snappy_mode" ≠
          m.read "snappy_mode" →
        m.read "snappy_mode" = "try" := by
  intro h
  have h1 := h foreignStore (by decide)
  revert h1
  decide

/-- C17, amended: for every bootloader the marker never reads `snappy_mode`
and writes no value other than "regular" to it; on a map-backed store the
mode is "regular" afterwards whatever it was before, so the marker turns "try"
into "regular" and overwrites any other previous value as well. -/
theorem marker_writes_regular_unobserved {σ ε : Type} (bl : Bootloader σ ε) (s : σ)
    (m : Store) :
    (∀ e ∈ (MarkBootSuccessful bl s).trace, e.1 ≠ .get "snappy_mode") ∧
    (∀ e ∈ (MarkBootSuccessful bl s).trace, ∀ v, e.1 = .set "snappy_mode" v → v = "regular") ∧
    (MarkBootSuccessful (mapBootloader ε) m).st.read "snappy_mode" = "regular" ∧
    (m.read "snappy_mode" = "try" →
      (MarkBootSuccessful (mapBootloader ε) m).st.read "snappy_mode" = "regular") := by
  have hcalls := markBootSuccessful_calls bl s
  have hfin : (MarkBootSuccessful (mapBootloader ε) m).st.read "snappy_mode" = "regular" := by
    rw [mark_map]
    simp [Store.read, Store.write]
  refine ⟨?_, ?_, hfin, fun _ => hfin⟩
  · intro e he hc
    have h := hcalls e he
    rw [hc] at h
    revert h
    decide
  · intro e he v hc
    have h := hcalls e he
    rw [hc] at h
    simpa [Call.allowed] using h

/-- The worked example of C17: from the trial store the mode goes from "try"
to "regular". -/
theorem marker_writes_regular_unobserved_witness :
    trialStore.read "snappy_mode" = "try" ∧
    (MarkBootSuccessful (mapBootloader String) trialStore).st.read "snappy_mode"
      = "regular" :=
  ⟨by decide,
   (marker_writes_regular_unobserved (mapBootloader String) trialStore trialStore).2.2.2
     (by decide)⟩

theorem exec_get_snd {σ ε : Type} (bl : Bootloader σ ε) (s : σ) (name : String) :
    (bl.exec s (.get name)).2 = (bl.GetBootVar s name).2 := by
  rcases h : bl.GetBootVar s name with ⟨_ | v, s1⟩ <;> simp [Bootloader.exec, h]

theorem allowed_set_marked (name value : String)
    (h : (Call.set name value).allowed = true) : name ∈ markedVars := by
  simp only [Call.allowed, Bool.or_eq_true, Bool.and_eq_true, beq_iff_eq] at h
  simp only [markedVars, List.mem_cons, List.mem_singleton, List.not_mem_nil, or_false]
  rcases h with ((h | h) | h) | h
  · exact Or.inl h
  · exact Or.inr (Or.inl h)
  · exact Or.inr (Or.inr (Or.inl h.1))
  · exact Or.inr (Or.inr (Or.inr h.1))

/-- Along a trace of allowed calls that replays on a frame-respecting
bootloader, a variable outside the four marked ones keeps its value. -/
theorem frame_along_trace {ε : Type} (bl : Bootloader Store ε) (hbl : FrameRespecting bl)
    (k : String) (hk : k ∉ markedVars) (r : Option ε) :
    ∀ (t : List (Call × Store)) (m : Store), StopsAtFirstFailure bl m t r →
      (∀ e ∈ t, e.1.allowed = true) →
      (∀ e ∈ t, e.2 k = m k) ∧ lastStore m t k = m k := by
  intro t
  induction t with
  | nil => intro m _ _; simp [lastStore]
  | cons a rest ih =>
    intro m hstop hall
    obtain ⟨c, m1⟩ := a
    simp only [StopsAtFirstFailure] at hstop
    obtain ⟨hexec, hrest⟩ := hstop
    have hc : c.allowed = true := hall (c, m1) (List.mem_cons_self _ _)
    have hm1 : m1 k = m k := by
      rw [← hexec]
      cases c with
      | get name => rw [exec_get_snd, hbl.1]
      | set name value =>
        have hne : k ≠ name := by
          intro h
          apply hk
          rw [h]
          exact allowed_set_marked name value hc
        exact hbl.2 m name value k hne
    have hall2 : ∀ e ∈ rest, e.1.allowed = true :=
      fun e he => hall e (List.mem_cons_of_mem _ he)
    cases hx : (bl.exec m c).1 with
    | some e =>
      rw [hx] at hrest
      obtain ⟨hnil, _⟩ := hrest
      subst hnil
      simp [lastStore, hm1]
    | none =>
      rw [hx] at hrest
      obtain ⟨h1, h2⟩ := ih m1 hrest hall2
      refine ⟨?_, ?_⟩
      · intro e he
        rcases List.mem_cons.mp he with h | h
        · rw [h]; exact hm1
        · rw [h1 e h, hm1]
      · simp only [lastStore]
        rw [h2, hm1]

theorem frameRespecting_map (ε : Type) : FrameRespecting (mapBootloader ε) := by
  refine ⟨fun _ _ => rfl, ?_⟩
  intro m name value k hne
  simp [mapBootloader, Store.write, hne]

theorem frameRespecting_modeLocked : FrameRespecting modeLockedBootloader := by
  refine ⟨fun _ _ => rfl, ?_⟩
  intro m name value k hne
  by_cases h : name = "snappy_mode"
  · simp [modeLockedBootloader, h]
  · simp [modeLockedBootloader, Store.write, h, hne]

/-- C18: the map-backed store is frame-respecting, and on every
frame-respecting bootloader over a map (its calls may fail) the marker writes
only `snappy_good_os`, `snappy_good_kernel`, `snappy_mode` and
`snappy_trial_boot`: every other variable, `snappy_os` and `snappy_kernel`
among them, has in every intermediate store and at return the value or absence
it had before, whether the run succeeds or stops part-way. -/
theorem markBootSuccessful_frame {ε : Type} (bl : Bootloader Store ε)
    (hbl : FrameRespecting bl) (m : Store) :
    FrameRespecting (mapBootloader ε) ∧
    (∀ e ∈ (MarkBootSuccessful bl m).trace, ∀ name value,
      e.1 = .set name value → name ∈ markedVars) ∧
    (∀ k, k ∉ markedVars →
      (∀ e ∈ (MarkBootSuccessful bl m).trace, e.2 k = m k) ∧
      (MarkBootSuccessful bl m).st k = m k) ∧
    (MarkBootSuccessful bl m).st "snappy_os" = m "snappy_os" ∧
    (MarkBootSuccessful bl m).st "snappy_kernel" = m "snappy_kernel" := by
  have hcalls := markBootSuccessful_calls bl m
  have hstop := markLoop_stops bl m ["snappy_os", "snappy_kernel"] m [] rfl rfl
  have hframe : ∀ k, k ∉ markedVars →
      (∀ e ∈ (MarkBootSuccessful bl m).trace, e.2 k = m k) ∧
      (MarkBootSuccessful bl m).st k = m k := by
    intro k hk
    have h := frame_along_trace bl hbl k hk _ _ m hstop.1 hcalls
    refine ⟨h.1, ?_⟩
    have h2 : (MarkBootSuccessful bl m).st = lastStore m (MarkBootSuccessful bl m).trace :=
      hstop.2
    rw [h2]
    exact h.2
  refine ⟨frameRespecting_map ε, ?_, hframe, (hframe "snappy_os" (by decide)).2,
    (hframe "snappy_kernel" (by decide)).2⟩
  intro e he name value hc
  have h := hcalls e he
  rw [hc] at h
  exact allowed_set_marked name value h

/-- The worked example of C18: on the store that rejects writes of
`snappy_mode` the run stops part-way, and `snappy_os`, `snappy_kernel` and an
unrelated variable are as before. -/
theorem markBootSuccessful_frame_witness :
    (MarkBootSuccessful modeLockedBootloader trialStore).err = some "EROFS" ∧
    (MarkBootSuccessful modeLockedBootloader trialStore).st "snappy_os" = some "core_1" ∧
    (MarkBootSuccessful modeLockedBootloader trialStore).st "snappy_kernel"
      = some "kernel_1" ∧
    (MarkBootSuccessful modeLockedBootloader trialStore).st "other_var" = none :=
  ⟨by decide,
   (markBootSuccessful_frame modeLockedBootloader frameRespecting_modeLocked trialStore).2.2.2.1,
   (markBootSuccessful_frame modeLockedBootloader frameRespecting_modeLocked trialStore).2.2.2.2,
   ((markBootSuccessful_frame modeLockedBootloader frameRespecting_modeLocked trialStore).2.2.1
     "other_var" (by decide)).2⟩

/-- C19: on a map-backed store, running `MarkBootSuccessful` a second time
leaves the store as the first run left it, and the second run returns nil. -/
theorem markBootSuccessful_idempotent (ε : Type) (m : Store) :
    (MarkBootSuccessful (mapBootloader ε) (MarkBootSuccessful (mapBootloader ε) m).st).st =
      (MarkBootSuccessful (mapBootloader ε) m).st ∧
    (MarkBootSuccessful (mapBootloader ε) (MarkBootSuccessful (mapBootloader ε) m).st).err =
      none := by
  rw [mark_map ε m, mark_map]
  refine ⟨?_, rfl⟩
  funext k
  simp only [Store.write, Store.read]
  by_cases h1 : k = "snappy_trial_boot"
  · simp [h1]
  · by_cases h2 : k = "snappy_mode"
    · simp [h2]
    · by_cases h3 : k = "snappy_good_kernel"
      · subst h3; simp
      · by_cases h4 : k = "snappy_good_os"
        · subst h4; simp
        · simp [h1, h2, h3, h4]

/-- The worked example of C19: two runs on the trial store. -/
theorem markBootSuccessful_idempotent_witness :
    (MarkBootSuccessful (mapBootloader String)
      (MarkBootSuccessful (mapBootloader String) trialStore).st).st =
      (MarkBootSuccessful (mapBootloader String) trialStore).st :=
  (markBootSuccessful_idempotent String trialStore).1

end Partition

namespace Snapstate

open GoStrings

/-- C20, as stated, fails: for the candidate named `my"snap` the message
renders the name as `"my\"snap"`, not as the name between double quotes,
whatever the printable table is. -/
theorem checkAssumes_message_escapes_name :
    ¬ ∃ tbl : PrintTable, ∀ (s : Info) (msg : String),
      checkAssumes tbl s = some (.errorf msg) →
        msg = rejectionMessageSpec s.Name s.Assumes := by
  rintro ⟨tbl, h⟩
  have h1 := h (sampleInfo "my\"snap" "app" ["f1"])
    "snap \"my\\\"snap\" assumes unsupported features: f1 (try new ubuntu-core)"
    (by rw [checkAssumes_latin1 tbl samplePrintTable _ (by decide)]; decide)
  revert h1
  decide

/-- C20, amended: when `checkAssumes` fails its message is `snap `, the name
as `%q` renders it, ` assumes unsupported features: `, the flags of the list
that are not in the feature set, in list order with repetitions kept, joined
by ", ", and ` (try new ubuntu-core)`; for a plain name this is the reference
message, with the name between double quotes. -/
theorem checkAssumes_message (tbl : PrintTable) (s : Info) (e : Error)
    (h : checkAssumes tbl s = some e) :
    e = .errorf ("snap " ++ Quote tbl s.Name ++ " assumes unsupported features: " ++
      Join (s.Assumes.filter (fun f => !featureSetGet f)) ", " ++
      " (try new ubuntu-core)") ∧
    (PlainName s.Name → e = .errorf (rejectionMessageSpec s.Name s.Assumes)) := by
  rw [checkAssumes_eq] at h
  split at h
  · have he := (Option.some.inj h).symm
    refine ⟨he, fun hp => ?_⟩
    have hq : "snap " ++ "\"" = "snap \"" := by decide
    have hq2 : "\"" ++ " assumes unsupported features: " =
        "\" assumes unsupported features: " := by decide
    rw [he, quote_plain tbl s.Name hp]
    simp only [rejectionMessageSpec, String.append_assoc, Error.errorf.injEq]
    rw [← String.append_assoc "snap " "\"", hq,
      ← String.append_assoc "\"" " assumes unsupported features: ", hq2]
  · cases h

/-- The worked example of C20: for the candidate `foo` with the assumes list
`f1, snap-env, f2, f1` the message is the reference message; for a name
holding a double quote, a backslash, a line feed, the control character
U+0085, the soft hyphen U+00AD and the zero-width space U+200B each of them is
escaped as Go writes it. -/
theorem checkAssumes_message_witness :
    checkAssumes samplePrintTable (sampleInfo "foo" "app" ["f1", "snap-env", "f2", "f1"]) =
      some (.errorf
        "snap \"foo\" assumes unsupported features: f1, f2, f1 (try new ubuntu-core)") ∧
    Error.errorf "snap \"foo\" assumes unsupported features: f1, f2, f1 (try new ubuntu-core)"
      = .errorf (rejectionMessageSpec "foo" ["f1", "snap-env", "f2", "f1"]) ∧
    checkAssumes samplePrintTable
      (sampleInfo (String.mk ['a', Char.ofNat 34, Char.ofNat 92, Char.ofNat 10,
        Char.ofNat 133, Char.ofNat 173, Char.ofNat 8203, Char.ofNat 233, 'b']) "app" ["f1"]) =
      some (.errorf (String.mk ("snap \"a".data ++
        [Char.ofNat 92, Char.ofNat 34, Char.ofNat 92, Char.ofNat 92, Char.ofNat 92, 'n'] ++
        (String.mk [Char.ofNat 92]).data ++ "u0085".data ++
        (String.mk [Char.ofNat 92]).data ++ "u00ad".data ++
        (String.mk [Char.ofNat 92]).data ++ "u200b".data ++ [Char.ofNat 233] ++
        "b\" assumes unsupported features: f1 (try new ubuntu-core)".data))) :=
  ⟨by decide,
   (checkAssumes_message samplePrintTable
      (sampleInfo "foo" "app" ["f1", "snap-env", "f2", "f1"])
      (.errorf "snap \"foo\" assumes unsupported features: f1, f2, f1 (try new ubuntu-core)")
      (by decide)).2 (by unfold PlainName; decide),
   by decide⟩

end Snapstate
